import Mathlib

/-!
Verification development for the AYON publisher controller
(client/ayon_core/tools/publisher/control.py).

The Python classes are shallowly embedded as Lean structures and pure
functions.  Python dicts (which preserve insertion order) are embedded as
association lists `List (String × α)`; inserting a fresh key appends,
assigning to an existing key updates in place.  Python floats used for
plugin orders are embedded as `Rat` (they only ever hold small dyadic
values such as 0, 1, 0.5).  Exceptions are embedded with `Except`/`Option`
results.  Event emissions are not modelled (they only notify a UI and
never change controller state); nondeterministic report fields
(`uuid.uuid4().hex`, timestamps) are omitted.
-/

namespace AyonPublisher

/-- Ordered-dict lookup: Python `d.get(k)` / `k in d`. -/
def dictLookup {α : Type} (l : List (String × α)) (k : String) : Option α :=
  match l with
  | [] => none
  | (k2, v) :: rest => if k2 = k then some v else dictLookup rest k

/-- Update the value stored at key `k` in place (no-op when absent). -/
def dictUpdate {α : Type} (l : List (String × α)) (k : String) (f : α → α) :
    List (String × α) :=
  match l with
  | [] => []
  | (k2, v) :: rest =>
    if k2 = k then (k2, f v) :: rest else (k2, v) :: dictUpdate rest k f

/-- Python `d[k] = v`: overwrite in place when present, append when fresh. -/
def dictAssign {α : Type} (l : List (String × α)) (k : String) (v : α) :
    List (String × α) :=
  if (dictLookup l k).isSome then dictUpdate l k (fun _ => v)
  else l ++ [(k, v)]

/-- First-seen-order accumulation, as the source does with
`if x not in acc: acc.append(x)`. -/
def firstSeen (l : List String) : List String :=
  l.foldl (fun acc x => if acc.contains x then acc else acc ++ [x]) []

/-- Model of a Python exception as far as the publisher inspects it:
membership in the two recognised exception classes, the validation payload
attributes, and its display message (`str(exception)`). -/
structure Exc where
  isValidationError : Bool
  isKnownPublishError : Bool
  isBlocking : Bool
  title : String
  description : String
  detail : String
  message : String
  deriving Repr, DecidableEq

/-- A pyblish plugin action: id, `__name__`, optional label and icon, the
declared `active` flag and the trigger condition.  `onCond` embeds the
source attribute `action.on` (`on` is reserved in Lean). -/
structure PAction where
  id : String
  name : String
  label : Option String
  icon : Option String
  active : Bool
  onCond : String
  deriving Repr, DecidableEq

/-- A pyblish instance as far as the controller reads it.  `label` is
`instance.data.get("label")` with `none` for a missing or falsy value;
`publish` is `instance.data.get("publish")` (absent key gives `none`). -/
structure PInstance where
  id : String
  name : String
  label : Option String
  publish : Option Bool
  family : Option String
  families : List String
  deriving Repr, DecidableEq

/-- A pyblish publish plugin.  `label` is `none` when the attribute is
missing or falsy.  `hasOptionalMixin` embeds
`OptionalPyblishPluginMixin in inspect.getmro(plugin)`;
`instanceEnabled` embeds `plugin.__instanceEnabled__`.  `behavior` is the
plugin's external execution entry point: the error (if any) that
`pyblish.plugin.process` reports for the given instance id (`none` for a
context-scoped run). -/
structure Plugin where
  id : String
  name : String
  label : Option String
  order : Rat
  targets : List String
  active : Bool
  optional : Bool
  hasOptionalMixin : Bool
  instanceEnabled : Bool
  families : List String
  actions : List PAction
  behavior : Option String → Option Exc

/-- pyblish.api.ValidatorOrder (constant from the external pyblish API). -/
def ValidatorOrder : Rat := 1

/-- PLUGIN_ORDER_OFFSET, control.py line 46 (the float 0.5).  Written as
a raw rational literal because the Batteries rational arithmetic
operations are irreducible and would block kernel evaluation; the
equation PLUGIN_ORDER_OFFSET = 1 / 2 is proved below. -/
def PLUGIN_ORDER_OFFSET : Rat := { num := 1, den := 2 }

/-- Structured result of one plugin execution
(`pyblish.plugin.process` output, then mutated by the controller).
Optional fields model dict keys that may be absent. -/
structure PResult where
  inst : Option PInstance
  duration : Rat
  records : List String
  error : Option Exc
  isValidationError : Option Bool
  isBlocking : Option Bool
  deriving Repr, DecidableEq

/-- PublishPluginActionItem: serializable proxy for an action. -/
structure PublishPluginActionItem where
  actionId : String
  pluginId : String
  active : Bool
  onFilter : String
  label : String
  icon : Option String
  deriving Repr, DecidableEq

/-- PublishPluginsProxy._create_action_item. -/
def create_action_item (a : PAction) (pluginId : String) :
    PublishPluginActionItem :=
  { actionId := a.id
    pluginId := pluginId
    active := a.active
    onFilter := a.onCond
    label := a.label.getD a.name
    icon := a.icon }

/-- PublishPluginsProxy._filter_plugin_active_actions: keep an action iff
it is declared active and its trigger condition matches the exception state.
`plugin_errored` is `isinstance(exception, PublishValidationError)` and
`error_is_blocking` is `getattr(exception, "is_blocking", False)`. -/
def filter_plugin_active_actions (actions : List PAction)
    (exception : Option Exc) : List PAction :=
  let pluginErrored := match exception with
    | some e => e.isValidationError
    | none => false
  let errorIsBlocking := match exception with
    | some e => e.isBlocking
    | none => false
  actions.filter fun a =>
    a.active && (a.onCond == "all"
      || (a.onCond == "failedOrWarning" && pluginErrored)
      || (a.onCond == "failed" && (pluginErrored && errorIsBlocking)))

/-- State of PublishPluginsProxy: plugins by id, and per plugin the
currently active action ids plus the id-indexed action dict. -/
structure PublishPluginsProxy where
  pluginsById : List (String × Plugin)
  actionsByPluginId : List (String × List (String × PAction))
  actionIdsByPluginId : List (String × List String)

/-- PublishPluginsProxy.__init__. -/
def PublishPluginsProxy.init (plugins : List Plugin) : PublishPluginsProxy :=
  { pluginsById :=
      plugins.foldl (fun acc p => dictAssign acc p.id p) []
    actionsByPluginId := []
    actionIdsByPluginId := [] }

/-- PublishPluginsProxy.set_plugin_actions.  Returns `none` when the
plugin id is unknown (Python raises KeyError there). -/
def PublishPluginsProxy.set_plugin_actions (proxy : PublishPluginsProxy)
    (pluginId : String) (exception : Option Exc) :
    Option PublishPluginsProxy :=
  match dictLookup proxy.pluginsById pluginId with
  | none => none
  | some plugin =>
    let filtered := filter_plugin_active_actions plugin.actions exception
    let actionIds := filtered.map (fun a => a.id)
    let actionsById := filtered.foldl (fun acc a => dictAssign acc a.id a) []
    some { proxy with
      actionIdsByPluginId :=
        dictAssign proxy.actionIdsByPluginId pluginId actionIds
      actionsByPluginId :=
        dictAssign proxy.actionsByPluginId pluginId actionsById }

/-- PublishPluginsProxy.get_action (`none` embeds KeyError). -/
def PublishPluginsProxy.get_action (proxy : PublishPluginsProxy)
    (pluginId actionId : String) : Option PAction := do
  let byId ← dictLookup proxy.actionsByPluginId pluginId
  dictLookup byId actionId

/-- PublishPluginsProxy.get_plugin_action_items (`none` embeds KeyError). -/
def PublishPluginsProxy.get_plugin_action_items (proxy : PublishPluginsProxy)
    (pluginId : String) : Option (List PublishPluginActionItem) := do
  let actionIds ← dictLookup proxy.actionIdsByPluginId pluginId
  let actions ← actionIds.mapM (proxy.get_action pluginId)
  pure (actions.map (fun a => create_action_item a pluginId))

/-- ValidationErrorItem: immutable snapshot of one validation failure. -/
structure ValidationErrorItem where
  instanceId : Option String
  instanceLabel : Option String
  pluginId : String
  contextValidation : Bool
  title : String
  description : String
  detail : String
  isBlocking : Bool
  deriving Repr, DecidableEq

/-- ValidationErrorItem.from_result. -/
def ValidationErrorItem.from_result (pluginId : String) (error : Exc)
    (inst : Option PInstance) : ValidationErrorItem :=
  { instanceId := inst.map (fun i => i.id)
    instanceLabel := inst.map (fun i => i.label.getD i.name)
    pluginId := pluginId
    contextValidation := inst.isNone
    title := error.title
    description := error.description
    detail := error.detail
    isBlocking := error.isBlocking }

/-- Serialized form of a ValidationErrorItem (its `to_data` dict). -/
structure ValidationErrorItemData where
  instanceId : Option String
  instanceLabel : Option String
  pluginId : String
  contextValidation : Bool
  title : String
  description : String
  detail : String
  isBlocking : Bool
  deriving Repr, DecidableEq

/-- ValidationErrorItem.to_data. -/
def ValidationErrorItem.to_data (v : ValidationErrorItem) :
    ValidationErrorItemData :=
  { instanceId := v.instanceId
    instanceLabel := v.instanceLabel
    pluginId := v.pluginId
    contextValidation := v.contextValidation
    title := v.title
    description := v.description
    detail := v.detail
    isBlocking := v.isBlocking }

/-- ValidationErrorItem.from_data (`cls(**data)`). -/
def ValidationErrorItem.from_data (d : ValidationErrorItemData) :
    ValidationErrorItem :=
  { instanceId := d.instanceId
    instanceLabel := d.instanceLabel
    pluginId := d.pluginId
    contextValidation := d.contextValidation
    title := d.title
    description := d.description
    detail := d.detail
    isBlocking := d.isBlocking }

/-- Serialized form of a PublishPluginActionItem (its `to_data` dict). -/
structure PublishPluginActionItemData where
  actionId : String
  pluginId : String
  active : Bool
  onFilter : String
  label : String
  icon : Option String
  deriving Repr, DecidableEq

/-- PublishPluginActionItem.to_data. -/
def PublishPluginActionItem.to_data (a : PublishPluginActionItem) :
    PublishPluginActionItemData :=
  { actionId := a.actionId
    pluginId := a.pluginId
    active := a.active
    onFilter := a.onFilter
    label := a.label
    icon := a.icon }

/-- PublishPluginActionItem.from_data on a serialized action item
(`cls(**data)` on a mapping with the expected keys). -/
def PublishPluginActionItem.from_data (d : PublishPluginActionItemData) :
    PublishPluginActionItem :=
  { actionId := d.actionId
    pluginId := d.pluginId
    active := d.active
    onFilter := d.onFilter
    label := d.label
    icon := d.icon }

/-- PublishPluginActionItem.from_data applied to a plain string, as
happens in PublishValidationErrorsReport.from_data where iterating the
serialized `plugin_action_items` dict yields its keys: `cls(**data)`
requires a mapping, so Python raises TypeError for every key. -/
def PublishPluginActionItem.from_data_of_key (k : String) :
    Except String PublishPluginActionItem :=
  Except.error ("TypeError: argument of type str is not a mapping: " ++ k)

/-- The dynamically-typed `_plugin_action_items` slot of
PublishValidationErrorsReport.  Reports built by
PublishValidationErrors.create_report hold a dict keyed by plugin id;
reports rebuilt by from_data hold a plain list (the source builds a list
comprehension there). -/
inductive PAIStore where
  | dict : List (String × List PublishPluginActionItem) → PAIStore
  | flat : List PublishPluginActionItem → PAIStore
  deriving Repr, DecidableEq

/-- Subscripting the `_plugin_action_items` slot with a plugin id:
a KeyError on the dict form and a TypeError on the list form both
surface as `none`. -/
def PAIStore.subscript (s : PAIStore) (pluginId : String) :
    Option (List PublishPluginActionItem) :=
  match s with
  | .dict l => dictLookup l pluginId
  | .flat _ => none

/-- PublishValidationErrorsReport. -/
structure PublishValidationErrorsReport where
  errorItems : List ValidationErrorItem
  pluginActionItems : PAIStore
  deriving Repr, DecidableEq

/-- `has_blocking_errors` as computed in the report constructor. -/
def PublishValidationErrorsReport.hasBlockingErrors
    (r : PublishValidationErrorsReport) : Bool :=
  r.errorItems.any (fun e => e.isBlocking)

/-- `has_non_blocking_errors` as computed in the report constructor. -/
def PublishValidationErrorsReport.hasNonBlockingErrors
    (r : PublishValidationErrorsReport) : Bool :=
  r.errorItems.any (fun e => !e.isBlocking)

/-- One entry of group_items_by_title output.  The source also carries a
random `uuid.uuid4().hex` id, omitted here as nondeterministic. -/
structure GroupedErrorItem where
  pluginId : String
  pluginActionItems : List PublishPluginActionItem
  errorItems : List ValidationErrorItem
  title : String
  deriving Repr, DecidableEq

/-- PublishValidationErrorsReport.group_items_by_title.  Plugin ids and
titles are collected in first-seen order; the source accumulates the
per-plugin and per-title buckets with defaultdict(list) appends, which
(preserving append order) equals filtering the item list.  The dict
subscript of `_plugin_action_items` can raise (KeyError on a missing
plugin id, TypeError when the slot is the list form from from_data):
both are `none` here. -/
def PublishValidationErrorsReport.group_items_by_title
    (r : PublishValidationErrorsReport) : Option (List GroupedErrorItem) :=
  let orderedPluginIds := firstSeen (r.errorItems.map (fun e => e.pluginId))
  (orderedPluginIds.mapM (fun pluginId => do
    let pluginActionItems ← r.pluginActionItems.subscript pluginId
    let errorItems :=
      r.errorItems.filter (fun (e : ValidationErrorItem) => e.pluginId == pluginId)
    let titles := firstSeen (errorItems.map (fun (e : ValidationErrorItem) => e.title))
    pure (titles.map (fun title =>
      ({ pluginId := pluginId
         pluginActionItems := pluginActionItems
         errorItems := errorItems.filter (fun e => e.title == title)
         title := title } : GroupedErrorItem)))
  )).map List.flatten

/-- Serialized form of a PublishValidationErrorsReport: the dict
`error_items` / `plugin_action_items` produced by to_data. -/
structure SerializedErrorsReport where
  errorItems : List ValidationErrorItemData
  pluginActionItems : List (String × List PublishPluginActionItemData)
  deriving Repr, DecidableEq

/-- PublishValidationErrorsReport.to_data.  Serializing iterates
`self._plugin_action_items.items()`, which only exists on the dict form
(`none` embeds the AttributeError on the list form, which the source can
only produce via from_data). -/
def PublishValidationErrorsReport.to_data
    (r : PublishValidationErrorsReport) :
    Option SerializedErrorsReport :=
  match r.pluginActionItems with
  | .flat _ => none
  | .dict l =>
    some
      { errorItems := r.errorItems.map (fun e => e.to_data)
        pluginActionItems :=
          l.map (fun kv => (kv.1, kv.2.map (fun a => a.to_data))) }

/-- PublishValidationErrorsReport.from_data.  The source iterates
`data["plugin_action_items"]` directly — iterating a Python dict yields
its keys — and feeds each key (a string) to
PublishPluginActionItem.from_data, which raises TypeError; the
comprehension result, when it survives (empty dict only), is a list, not
a dict. -/
def PublishValidationErrorsReport.from_data (d : SerializedErrorsReport) :
    Except String PublishValidationErrorsReport := do
  let errorItems := d.errorItems.map ValidationErrorItem.from_data
  let pluginActionItems ←
    (d.pluginActionItems.map (fun kv => kv.1)).mapM
      PublishPluginActionItem.from_data_of_key
  pure { errorItems := errorItems
         pluginActionItems := .flat pluginActionItems }

/-- PublishValidationErrors accumulator state. -/
structure PublishValidationErrors where
  errorItems : List ValidationErrorItem
  pluginActionItems : List (String × List PublishPluginActionItem)
  deriving Repr, DecidableEq

/-- PublishValidationErrors.reset. -/
def PublishValidationErrors.reset : PublishValidationErrors :=
  { errorItems := [], pluginActionItems := [] }

/-- PublishValidationErrors.create_report. -/
def PublishValidationErrors.create_report (v : PublishValidationErrors) :
    PublishValidationErrorsReport :=
  { errorItems := v.errorItems
    pluginActionItems := .dict v.pluginActionItems }

/-- PublishValidationErrors.add_error: substitute the plugin label (or
name) for a missing error title, append the snapshot item, and cache
the plugin's currently-active action items the first time its id is
seen.  Returns `none` when the proxy has no action entry for the plugin
(Python KeyError inside get_plugin_action_items). -/
def PublishValidationErrors.add_error (v : PublishValidationErrors)
    (proxy : PublishPluginsProxy) (plugin : Plugin) (error : Exc)
    (inst : Option PInstance) : Option PublishValidationErrors :=
  let pluginId := plugin.id
  let error :=
    if error.title = "" then
      { error with title := plugin.label.getD plugin.name }
    else error
  let v := { v with
    errorItems :=
      v.errorItems ++ [ValidationErrorItem.from_result pluginId error inst] }
  if (dictLookup v.pluginActionItems pluginId).isSome then some v
  else
    match proxy.get_plugin_action_items pluginId with
    | none => none
    | some pluginActions =>
      some { v with
        pluginActionItems :=
          dictAssign v.pluginActionItems pluginId pluginActions }

/-- One entry of a plugin's `instances_data` / `actions_data` log list.
Log records are carried as their messages; an error entry keeps the
flags the source reads back out of the result dict. -/
inductive LogItem where
  | record (msg : String)
  | errorEntry (isValidationError : Bool) (isBlocking : Bool) (msg : String)
  deriving Repr, DecidableEq

/-- PublishReportMaker._extract_log_items: one entry per log record, then
one error entry when the result carries an error (the error flags default
to False when the keys are absent, e.g. for action results). -/
def extract_log_items (result : PResult) : List LogItem :=
  result.records.map LogItem.record ++
    match result.error with
    | none => []
    | some e =>
      [LogItem.errorEntry (result.isValidationError.getD false)
        (result.isBlocking.getD false) e.message]

/-- One element of a plugin's `instances_data`. -/
structure InstanceLogData where
  id : Option String
  logs : List LogItem
  processTime : Rat
  deriving Repr, DecidableEq

/-- One element of a plugin's `actions_data`. -/
structure ActionResultData where
  success : Bool
  name : String
  label : String
  logs : List LogItem
  deriving Repr, DecidableEq

/-- The per-plugin record built by
PublishReportMaker._create_plugin_data_item. -/
structure PluginData where
  id : String
  name : String
  label : Option String
  order : Rat
  targets : List String
  instancesData : List InstanceLogData
  actionItems : List PublishPluginActionItem
  actionsData : List ActionResultData
  skipped : Bool
  passed : Bool
  errored : Bool
  isBlocking : Bool
  deriving Repr, DecidableEq

/-- PublishReportMaker._create_plugin_data_item. -/
def create_plugin_data_item (p : Plugin) : PluginData :=
  { id := p.id
    name := p.name
    label := p.label
    order := p.order
    targets := p.targets
    instancesData := []
    actionItems := []
    actionsData := []
    skipped := false
    passed := false
    errored := false
    isBlocking := false }

/-- PublishReportMaker state.  `_current_plugin` and the live
`_current_plugin_data` reference are embedded as the current plugin id:
the current data dict is the entry stored under that id (the source keeps
them aliased).  Discovery results and the context reference live outside
src and enter only through reset arguments, so they are not carried. -/
structure PublishReportMaker where
  pluginDataById : List (String × PluginData)
  currentPlugin : Option String
  allInstancesById : List (String × PInstance)
  deriving Repr, DecidableEq

/-- Fresh/reset report maker (before the mismatch-target pre-pass). -/
def PublishReportMaker.empty : PublishReportMaker :=
  { pluginDataById := [], currentPlugin := none, allInstancesById := [] }

/-- PublishReportMaker._add_plugin_data_item: registering an id that
already has a stored record raises ValueError before any mutation. -/
def PublishReportMaker.add_plugin_data_item (r : PublishReportMaker)
    (p : Plugin) : Except String PublishReportMaker :=
  if (dictLookup r.pluginDataById p.id).isSome then
    Except.error ("Plugin " ++ p.name ++ " is already stored")
  else
    Except.ok { r with
      pluginDataById := r.pluginDataById ++ [(p.id, create_plugin_data_item p)] }

/-- PublishReportMaker.reset: clear all bookkeeping, then pre-register
every target-mismatched plugin as skipped (a duplicate id there
propagates the ValueError). -/
def PublishReportMaker.reset (mismatchTargets : List Plugin) :
    Except String PublishReportMaker :=
  mismatchTargets.foldlM
    (fun r p => do
      let r ← r.add_plugin_data_item p
      pure { r with
        pluginDataById :=
          dictUpdate r.pluginDataById p.id (fun d => { d with skipped := true })
        currentPlugin := r.currentPlugin })
    PublishReportMaker.empty

/-- PublishReportMaker.add_plugin_iter: absorb context instances into the
all-time index, mark the previous current plugin (if any) as passed, and
open a record for the new plugin (ValueError on a duplicate id). -/
def PublishReportMaker.add_plugin_iter (r : PublishReportMaker)
    (p : Plugin) (context : List PInstance) : Except String PublishReportMaker :=
  let r := { r with
    allInstancesById :=
      context.foldl (fun acc (i : PInstance) => dictAssign acc i.id i)
        r.allInstancesById }
  let r :=
    match r.currentPlugin with
    | some pid =>
      { r with
        pluginDataById :=
          dictUpdate r.pluginDataById pid (fun d => { d with passed := true }) }
    | none => r
  PublishReportMaker.add_plugin_data_item { r with currentPlugin := some p.id } p

/-- PublishReportMaker.set_plugin_skipped.  With no current plugin the
source writes into a dangling empty dict, changing no stored record;
that is a no-op here. -/
def PublishReportMaker.set_plugin_skipped (r : PublishReportMaker) :
    PublishReportMaker :=
  match r.currentPlugin with
  | some pid =>
    { r with
      pluginDataById :=
        dictUpdate r.pluginDataById pid (fun d => { d with skipped := true }) }
  | none => r

/-- PublishReportMaker.set_plugin_action_items. -/
def PublishReportMaker.set_plugin_action_items (r : PublishReportMaker)
    (actionItems : List PublishPluginActionItem) : PublishReportMaker :=
  match r.currentPlugin with
  | some pid =>
    { r with
      pluginDataById :=
        dictUpdate r.pluginDataById pid
          (fun d => { d with actionItems := actionItems }) }
  | none => r

/-- PublishReportMaker.add_result: append one instance record to the
current plugin and overwrite its errored / is_blocking flags with the
latest result values (False when the keys are absent). -/
def PublishReportMaker.add_result (r : PublishReportMaker) (result : PResult) :
    PublishReportMaker :=
  match r.currentPlugin with
  | some pid =>
    { r with
      pluginDataById :=
        dictUpdate r.pluginDataById pid (fun d =>
          { d with
            instancesData := d.instancesData ++
              [{ id := result.inst.map (fun (i : PInstance) => i.id)
                 logs := extract_log_items result
                 processTime := result.duration }]
            errored := result.isValidationError.getD false
            isBlocking := result.isBlocking.getD false }) }
  | none => r

/-- PublishReportMaker.add_action_result. -/
def PublishReportMaker.add_action_result (r : PublishReportMaker)
    (action : PAction) (plugin : Plugin) (result : PResult) (success : Bool) :
    Except String PublishReportMaker := do
  let r ←
    if (dictLookup r.pluginDataById plugin.id).isSome then pure r
    else r.add_plugin_data_item plugin
  pure { r with
    pluginDataById :=
      dictUpdate r.pluginDataById plugin.id (fun d =>
        { d with
          actionsData := d.actionsData ++
            [{ success := success
               name := action.name
               label := action.label.getD action.name
               logs := extract_log_items result }] }) }

/-- One step of the get_report pass that appends never-ran plugins as
fresh not-yet-processed items. -/
def report_extend_step (acc : List (String × PluginData)) (p : Plugin) :
    List (String × PluginData) :=
  if (dictLookup acc p.id).isSome then acc
  else acc ++ [(p.id, create_plugin_data_item p)]

/-- The deep copy of the stored records with the copy of the current
plugin, if any, forced to passed (get_report's first pass). -/
def forced_dict (r : PublishReportMaker) : List (String × PluginData) :=
  match r.currentPlugin with
  | some pid =>
    dictUpdate r.pluginDataById pid
      (fun pd => if pd.passed then pd else { pd with passed := true })
  | none => r.pluginDataById

/-- The keyed `plugins_data` snapshot of PublishReportMaker.get_report:
the stored records deep-copied, with the copy of the current plugin, if
any, forced to passed, and plugins that never ran appended as fresh
items. -/
def get_report_dict (r : PublishReportMaker)
    (publishPlugins : List Plugin) : List (String × PluginData) :=
  publishPlugins.foldl report_extend_step (forced_dict r)

/-- PublishReportMaker.get_report, restricted to the `plugins_data`
snapshot (the instance details, crashed file paths, random report id and
timestamp depend on data outside src or are nondeterministic). -/
def PublishReportMaker.get_report (r : PublishReportMaker)
    (publishPlugins : List Plugin) : List PluginData :=
  (get_report_dict r publishPlugins).map (fun kv => kv.2)

/-- Validation order threshold:
`pyblish.api.ValidatorOrder + PLUGIN_ORDER_OFFSET`
(PublisherController.__init__); a plugin at or above it is an extractor
or later.  Written as a raw rational literal (see PLUGIN_ORDER_OFFSET);
the defining equation is proved below as validation_order_def. -/
def validation_order : Rat := { num := 3, den := 2 }

/-- PublisherController._is_publish_plugin_active: a plugin is eligible
when its active flag is set, or when it is optional and inherits
OptionalPyblishPluginMixin. -/
def is_publish_plugin_active (p : Plugin) : Bool :=
  if p.active then true
  else if !p.optional then false
  else p.hasOptionalMixin

/-- collect_families_from_instances (control.py bottom).  The source
accumulates into a Python set, whose iteration order is unspecified;
first-seen order is used here, and only membership is consumed
downstream. -/
def collect_families_from_instances (instances : List PInstance)
    (onlyActive : Bool) : List String :=
  instances.foldl
    (fun acc i =>
      if onlyActive && i.publish == some false then acc
      else
        let acc := match i.family with
          | some family => if acc.contains family then acc else acc ++ [family]
          | none => acc
        i.families.foldl
          (fun acc family =>
            if acc.contains family then acc else acc ++ [family])
          acc)
    []

/-- Modelled from the spec: `pyblish.logic.instances_by_plugin` lives in
the external pyblish package.  Spec section 4.4: an active instance-scoped
plugin "iterates every instance currently attached to the run context"
(instances whose publish flag is off are skipped later, in the loop). -/
def instances_by_plugin (context : List PInstance) (_p : Plugin) :
    List PInstance :=
  context

/-- Modelled from the spec: `pyblish.logic.plugins_by_families` lives in
the external pyblish package.  Spec section 4.4: a context-scoped plugin
yields a unit iff "the plugin's declared family filters intersect" the
families of the active instances. -/
def plugin_matches_families (p : Plugin) (families : List String) : Bool :=
  p.families.any (fun family => families.contains family)

/-- Controller state: the publish-state attributes of
BasePublisherController plus the run bookkeeping of PublisherController.
`executedUnits` and `latchTrace` are ghost instrumentation recording which
(plugin, instance) units ran and the latch value observed when each
plugin was registered with the report maker; `fault` records a Python
exception escaping the machinery (duplicate plugin id, missing proxy
entry, exhausted iterator). -/
structure CtrlState where
  publishErrorMsg : Option String
  publishIsRunning : Bool
  publishHasValidated : Bool
  publishHasValidationErrors : Bool
  publishHasValidationBlockingErrors : Bool
  publishHasCrashed : Bool
  publishHasStarted : Bool
  publishHasFinished : Bool
  publishMaxProgress : Nat
  publishProgress : Nat
  publishUpValidation : Bool
  publishCommentIsSet : Bool
  ignoreNonBlockingErrors : Bool
  btnClicked : Option String
  proxy : PublishPluginsProxy
  report : PublishReportMaker
  validationErrors : PublishValidationErrors
  executedUnits : List (String × Option String)
  latchTrace : List (Rat × Bool)
  fault : Bool

/-- Controller state right after __init__. -/
def CtrlState.init : CtrlState :=
  { publishErrorMsg := none
    publishIsRunning := false
    publishHasValidated := false
    publishHasValidationErrors := false
    publishHasValidationBlockingErrors := false
    publishHasCrashed := false
    publishHasStarted := false
    publishHasFinished := false
    publishMaxProgress := 0
    publishProgress := 0
    publishUpValidation := false
    publishCommentIsSet := false
    ignoreNonBlockingErrors := false
    btnClicked := none
    proxy := PublishPluginsProxy.init []
    report := PublishReportMaker.empty
    validationErrors := PublishValidationErrors.reset
    executedUnits := []
    latchTrace := []
    fault := false }

/-- BasePublisherController._reset_attributes. -/
def reset_attributes (c : CtrlState) : CtrlState :=
  { c with
    publishIsRunning := false
    publishHasStarted := false
    publishHasValidated := false
    publishHasCrashed := false
    publishHasValidationErrors := false
    publishHasValidationBlockingErrors := false
    publishHasFinished := false
    publishErrorMsg := none
    publishProgress := 0 }

/-- Fixed inputs of one publishing session: the discovered plugin list,
the target-mismatched plugins pre-registered as skipped, the instances
visible on the pyblish context (plugin side effects on the context are
not modelled, so the list is fixed for the run), and the
interactive-vs-batch flag (the source reads it from the host
environment; the spec treats it as injected configuration). -/
structure RunConfig where
  plugins : List Plugin
  mismatchTargets : List Plugin
  contextInstances : List PInstance
  interactive : Bool

/-- A MainThreadItem yielded by the generator: either the stop callback
or one (plugin, instance) execution unit. -/
inductive MainItem where
  | stopItem
  | processItem (p : Plugin) (inst : Option PInstance)

/-- Resume point of the _publish_iterator generator:
at the top of the plugin loop, suspended at the stop yield for the
up-to-validation intent, suspended at the stop yield of the
validation-errors check, inside the instance loop, or exhausted. -/
inductive GenState where
  | atTop (idx : Nat) (rest : List Plugin)
  | afterUpValidationStop (idx : Nat) (p : Plugin) (rest : List Plugin)
  | afterErrorsStop (idx : Nat) (p : Plugin) (rest : List Plugin)
  | inInstances (idx : Nat) (p : Plugin) (insts : List PInstance)
      (rest : List Plugin)
  | exhausted

/-- The instance loop of _publish_iterator: skip instances whose publish
data is False, return the first remaining instance and the tail. -/
def find_next_instance : List PInstance → Option (PInstance × List PInstance)
  | [] => none
  | i :: rest =>
    if i.publish == some false then find_next_instance rest
    else some (i, rest)

/-- The _publish_iterator plugin body from the add_plugin_iter call
onward: register the plugin with the report maker (recording the ghost
latch trace entry), skip inactive plugins, and emit the next execution
unit for instance- or context-scoped plugins.  `Sum.inl` is a yield,
`Sum.inr` falls through to the next plugin. -/
def gen_step_r2 (cfg : RunConfig) (c : CtrlState) (idx : Nat) (p : Plugin)
    (rest : List Plugin) : (CtrlState × MainItem × GenState) ⊕ CtrlState :=
  match c.report.add_plugin_iter p cfg.contextInstances with
  | .error _ => .inl ({ c with fault := true }, .stopItem, .exhausted)
  | .ok report =>
    let c := { c with
      report := report
      latchTrace := c.latchTrace ++ [(p.order, c.publishHasValidated)] }
    if !is_publish_plugin_active p then
      .inr { c with report := c.report.set_plugin_skipped }
    else if p.instanceEnabled then
      let instances := instances_by_plugin cfg.contextInstances p
      if instances.isEmpty then
        .inr { c with report := c.report.set_plugin_skipped }
      else
        match find_next_instance instances with
        | some (i, restInstances) =>
          .inl (c, .processItem p (some i), .inInstances idx p restInstances rest)
        | none => .inr c
    else
      let families := collect_families_from_instances cfg.contextInstances true
      if plugin_matches_families p families then
        .inl (c, .processItem p none, .atTop (idx + 1) rest)
      else
        .inr { c with report := c.report.set_plugin_skipped }

/-- The _publish_iterator plugin body from the validation-errors check
onward: once validated, any validation error stops an interactive run and
a blocking one stops a batch run. -/
def gen_step_r1 (cfg : RunConfig) (c : CtrlState) (idx : Nat) (p : Plugin)
    (rest : List Plugin) : (CtrlState × MainItem × GenState) ⊕ CtrlState :=
  if c.publishHasValidated then
    if cfg.interactive then
      if c.publishHasValidationErrors then
        .inl (c, .stopItem, .afterErrorsStop idx p rest)
      else gen_step_r2 cfg c idx p rest
    else
      if c.publishHasValidationBlockingErrors then
        .inl (c, .stopItem, .afterErrorsStop idx p rest)
      else gen_step_r2 cfg c idx p rest
  else gen_step_r2 cfg c idx p rest

/-- The progress write and validation-latch update at the top of the
_publish_iterator plugin loop. -/
def gen_top_update (c : CtrlState) (idx : Nat) (p : Plugin) : CtrlState :=
  let c := { c with publishProgress := idx }
  if c.publishHasValidated then c
  else { c with publishHasValidated := decide (validation_order ≤ p.order) }

/-- The _publish_iterator loop from its top: record progress, update the
validation latch, honor the up-to-validation stop, then run the plugin
body; exhausting the list marks the run finished and yields the final
stop. -/
def gen_top (cfg : RunConfig) (c : CtrlState) (idx : Nat) :
    List Plugin → CtrlState × MainItem × GenState
  | [] =>
    let c := { c with
      publishHasFinished := true
      publishProgress := c.publishMaxProgress }
    (c, .stopItem, .exhausted)
  | p :: rest =>
    let c := gen_top_update c idx p
    if c.publishUpValidation && c.publishHasValidated then
      (c, .stopItem, .afterUpValidationStop idx p rest)
    else
      match gen_step_r1 cfg c idx p rest with
      | .inl out => out
      | .inr c2 => gen_top cfg c2 (idx + 1) rest

/-- `next(self._main_thread_iter)`: run the generator from its resume
point to the next yield.  `none` is StopIteration (pulling an exhausted
generator). -/
def gen_pull (cfg : RunConfig) (c : CtrlState) :
    GenState → CtrlState × Option MainItem × GenState
  | .atTop idx rest =>
    let (c2, item, g2) := gen_top cfg c idx rest
    (c2, some item, g2)
  | .afterUpValidationStop idx p rest =>
    (match gen_step_r1 cfg c idx p rest with
     | .inl (c2, item, g2) => (c2, some item, g2)
     | .inr c2 =>
       let (c3, item, g3) := gen_top cfg c2 (idx + 1) rest
       (c3, some item, g3))
  | .afterErrorsStop idx p rest =>
    (match gen_step_r2 cfg c idx p rest with
     | .inl (c2, item, g2) => (c2, some item, g2)
     | .inr c2 =>
       let (c3, item, g3) := gen_top cfg c2 (idx + 1) rest
       (c3, some item, g3))
  | .inInstances idx p insts rest =>
    (match find_next_instance insts with
     | some (i, restInstances) =>
       (c, some (.processItem p (some i)), .inInstances idx p restInstances rest)
     | none =>
       let (c3, item, g3) := gen_top cfg c (idx + 1) rest
       (c3, some item, g3))
  | .exhausted => (c, none, .exhausted)

/-- PublisherController._stop_publish. -/
def stop_publish_now (c : CtrlState) : CtrlState :=
  { c with publishIsRunning := false, ignoreNonBlockingErrors := false }

/-- PublisherController.stop_publish (public; guarded by is-running). -/
def stop_publish (c : CtrlState) : CtrlState :=
  if c.publishIsRunning then stop_publish_now c else c

/-- The stop conditions _publish_next_process checks before consuming the
iterator: interactive runs stop on any validation error once validated,
batch runs only on blocking ones. -/
def stop_publish_conditions (cfg : RunConfig) (c : CtrlState) : Bool :=
  if cfg.interactive then
    c.publishHasValidated && c.publishHasValidationErrors
  else
    c.publishHasValidated && c.publishHasValidationBlockingErrors

/-- PublisherController._set_error_title_if_missing. -/
def set_error_title_if_missing (p : Plugin) (e : Exc) : Exc :=
  if e.title = "" then { e with title := p.label.getD p.name } else e

/-- PublisherController._add_validation_error: drop non-blocking errors
when the session override is set (only logging them); otherwise raise the
non-specific flag, additionally the blocking flag for blocking errors,
and record the error item.  `isBlocking` is `result["is_blocking"]`,
assigned from the exception by the caller. -/
def add_validation_error (c : CtrlState) (p : Plugin) (e : Exc)
    (inst : Option PInstance) (isBlocking : Bool) : CtrlState :=
  let e := set_error_title_if_missing p e
  if !isBlocking && c.ignoreNonBlockingErrors then c
  else
    let c := { c with publishHasValidationErrors := true }
    let c :=
      if isBlocking then { c with publishHasValidationBlockingErrors := true }
      else c
    match c.validationErrors.add_error c.proxy p e inst with
    | some validationErrors => { c with validationErrors := validationErrors }
    | none => { c with fault := true }

/-- PublisherController._process_and_continue without its trailing
_publish_next_process call (the driver recursion lives in
publish_next_process): execute the plugin, recompute its actions,
classify the exception (a validation error only strictly before the
latch is set, a crash otherwise), and feed the result to the report. -/
def process_and_continue_step (c : CtrlState) (p : Plugin)
    (inst : Option PInstance) : CtrlState :=
  let errorOpt := p.behavior (inst.map (fun (i : PInstance) => i.id))
  let result : PResult :=
    { inst := inst, duration := 0, records := [], error := errorOpt
      isValidationError := none, isBlocking := none }
  match c.proxy.set_plugin_actions p.id errorOpt with
  | none => { c with fault := true }
  | some proxy =>
    let c := { c with proxy := proxy }
    let (c, result) :=
      match errorOpt with
      | some e =>
        if e.isValidationError && !c.publishHasValidated then
          let result := { result with isBlocking := some e.isBlocking }
          let c := add_validation_error c p e inst e.isBlocking
          (c, { result with isValidationError := some true })
        else
          let msg :=
            if e.isKnownPublishError then e.message
            else "Something went wrong. Send report to your supervisor or Ynput team."
          ({ c with publishErrorMsg := some msg, publishHasCrashed := true },
            { result with isValidationError := some false })
      | none => (c, result)
    if c.fault then c
    else
      let c := { c with report := c.report.add_result result }
      match c.proxy.get_plugin_action_items p.id with
      | none => { c with fault := true }
      | some items =>
        { c with
          report := c.report.set_plugin_action_items items
          executedUnits :=
            c.executedUnits ++
              [(p.id, inst.map (fun (i : PInstance) => i.id))] }

/-- PublisherController._publish_next_process together with
_process_main_thread_item and the chaining at the end of
_process_and_continue.  The fuel bounds the number of processed items
(a run consumes at most one item per plugin, instance pair plus the stop
items); exhausted fuel is a fault, never reached by the concrete runs
below. -/
def publish_next_process (cfg : RunConfig) :
    Nat → CtrlState → GenState → CtrlState × GenState
  | 0, c, g => ({ c with fault := true }, g)
  | Nat.succ fuel, c, g =>
    if stop_publish_conditions cfg c then (stop_publish c, g)
    else if c.publishHasCrashed then (stop_publish c, g)
    else
      match gen_pull cfg c g with
      | (c2, none, g2) => ({ c2 with fault := true }, g2)
      | (c2, some item, g2) =>
        if c2.fault then (c2, g2)
        else
          match item with
          | .stopItem => (stop_publish c2, g2)
          | .processItem p inst =>
            let c3 := process_and_continue_step c2 p inst
            if c3.fault then (c3, g2)
            else publish_next_process cfg fuel c3 g2

/-- PublisherController._reset_publish: reset the attributes and the
intent flags, recreate the iterator, proxy, report and error store, and
set the progress range. -/
def reset_publish (cfg : RunConfig) (c : CtrlState) : CtrlState × GenState :=
  let c := reset_attributes c
  let c := { c with publishUpValidation := false, publishCommentIsSet := false }
  let g := GenState.atTop 0 cfg.plugins
  let c := { c with proxy := PublishPluginsProxy.init cfg.plugins }
  let c :=
    match PublishReportMaker.reset cfg.mismatchTargets with
    | .ok report => { c with report := report }
    | .error _ => { c with fault := true }
  let c := { c with
    validationErrors := PublishValidationErrors.reset
    publishMaxProgress := cfg.plugins.length
    executedUnits := []
    latchTrace := [] }
  (c, g)

/-- PublisherController._start_publish. -/
def start_publish (cfg : RunConfig) (fuel : Nat) (c : CtrlState)
    (g : GenState) : CtrlState × GenState :=
  if c.publishIsRunning then (c, g)
  else
    let c := { c with publishIsRunning := true, publishHasStarted := true }
    publish_next_process cfg fuel c g

/-- PublisherController.publish. -/
def publish_call (cfg : RunConfig) (fuel : Nat) (c : CtrlState)
    (g : GenState) : CtrlState × GenState :=
  let c := { c with btnClicked := some "publish", publishUpValidation := false }
  start_publish cfg fuel c g

/-- PublisherController.validate. -/
def validate_call (cfg : RunConfig) (fuel : Nat) (c : CtrlState)
    (g : GenState) : CtrlState × GenState :=
  let c := { c with btnClicked := some "validate" }
  if c.publishHasValidated then (c, g)
  else start_publish cfg fuel { c with publishUpValidation := true } g

/-- PublisherController.ignore_non_blocking_errors: set the session
override, fully reset the run, and (the reset leaves no run in progress)
restart the previously requested mode. -/
def ignore_non_blocking_errors_call (cfg : RunConfig) (fuel : Nat)
    (c : CtrlState) (_g : GenState) : CtrlState × GenState :=
  let c := { c with ignoreNonBlockingErrors := true }
  let (c, g) := reset_publish cfg c
  if c.publishIsRunning then (c, g)
  else
    match c.btnClicked with
    | some btn =>
      if btn = "validate" then validate_call cfg fuel c g
      else if btn = "publish" then publish_call cfg fuel c g
      else (c, g)
    | none => (c, g)

/-- Concrete instance A: active (no publish key set). -/
def instanceA : PInstance :=
  { id := "A", name := "A", label := none, publish := none
    family := some "render", families := [] }

/-- Concrete instance B: inactive (publish set to False). -/
def instanceB : PInstance :=
  { id := "B", name := "B", label := none, publish := some false
    family := some "render", families := [] }

/-- A non-blocking PublishValidationError payload. -/
def nonBlockingError : Exc :=
  { isValidationError := true, isKnownPublishError := true
    isBlocking := false, title := "Bad value", description := "desc"
    detail := "detail", message := "Bad value found" }

/-- Concrete collector plugin at order 0 that always succeeds. -/
def pluginCollector : Plugin :=
  { id := "p0", name := "CollectThings", label := none, order := 0
    targets := [], active := true, optional := false
    hasOptionalMixin := false, instanceEnabled := true, families := []
    actions := [], behavior := fun _ => none }

/-- Concrete plugin at exactly the validation threshold
(validator-order + offset = 3/2) raising a non-blocking validation error
on instance A. -/
def pluginBoundary : Plugin :=
  { id := "p1", name := "ValidateBoundary", label := none, order := { num := 3, den := 2 }
    targets := [], active := true, optional := false
    hasOptionalMixin := false, instanceEnabled := true, families := []
    actions := []
    behavior := fun inst =>
      if inst == some "A" then some nonBlockingError else none }

/-- Concrete plugin one above the threshold that always succeeds. -/
def pluginExtractor : Plugin :=
  { id := "p2", name := "ExtractThings", label := none
    order := { num := 5, den := 2 }
    targets := [], active := true, optional := false
    hasOptionalMixin := false, instanceEnabled := true, families := []
    actions := [], behavior := fun _ => none }

/-- Concrete validator below the threshold (order 1 < 3/2) raising a
non-blocking validation error on instance A. -/
def pluginValidator : Plugin :=
  { id := "pv", name := "ValidateStuff", label := none, order := 1
    targets := [], active := true, optional := false
    hasOptionalMixin := false, instanceEnabled := true, families := []
    actions := []
    behavior := fun inst =>
      if inst == some "A" then some nonBlockingError else none }

/-- C1 scenario configuration: 3 plugins at orders
[0, validator-order + offset, validator-order + offset + 1], instance A
active, instance B inactive, interactive mode. -/
def c1Config : RunConfig :=
  { plugins := [pluginCollector, pluginBoundary, pluginExtractor]
    mismatchTargets := []
    contextInstances := [instanceA, instanceB]
    interactive := true }

/-- C1 scenario run: reset, then interactive validate(). -/
def c1Run : CtrlState × GenState :=
  let (c, g) := reset_publish c1Config CtrlState.init
  validate_call c1Config 32 c g

/-- C7 scenario configuration: collector, a validator below the
threshold that raises a non-blocking error on A, and an extractor at the
threshold; interactive mode. -/
def c7Config : RunConfig :=
  { plugins := [pluginCollector, pluginValidator, pluginExtractor]
    mismatchTargets := []
    contextInstances := [instanceA, instanceB]
    interactive := true }

/-- C7 paused state: interactive validate() records the non-blocking
error at the validator and pauses at the validation boundary. -/
def c7Paused : CtrlState × GenState :=
  let (c, g) := reset_publish c7Config CtrlState.init
  validate_call c7Config 32 c g

/-- C7 resumed state: ignore_non_blocking_errors() on the paused run. -/
def c7Resumed : CtrlState × GenState :=
  ignore_non_blocking_errors_call c7Config 32 c7Paused.1 c7Paused.2

/-- C5 scenario: the same plugins in batch mode, full publish(): the
non-blocking error does not halt, the run finishes with the non-specific
flag set and the blocking flag clear. -/
def c5Config : RunConfig :=
  { plugins := [pluginCollector, pluginValidator, pluginExtractor]
    mismatchTargets := []
    contextInstances := [instanceA, instanceB]
    interactive := false }

/-- C5 scenario run: reset, then batch publish(). -/
def c5Run : CtrlState × GenState :=
  let (c, g) := reset_publish c5Config CtrlState.init
  publish_call c5Config 32 c g

/-- Builder for concrete validation error items (instance-scoped,
non-blocking, empty description and detail). -/
def mkErrorItem (pluginId title instanceId : String) : ValidationErrorItem :=
  { instanceId := some instanceId
    instanceLabel := some instanceId
    pluginId := pluginId
    contextValidation := false
    title := title
    description := ""
    detail := ""
    isBlocking := false }

/-- C3 report: error sequence [(P1,A), (P2,B), (P1,A), (P1,C)] with
action items cached for both plugins. -/
def c3Report : PublishValidationErrorsReport :=
  { errorItems :=
      [mkErrorItem "P1" "A" "i1", mkErrorItem "P2" "B" "i2",
       mkErrorItem "P1" "A" "i3", mkErrorItem "P1" "C" "i4"]
    pluginActionItems := .dict [("P1", []), ("P2", [])] }

/-- A concrete cached action item for the C4 report. -/
def c4ActionItem : PublishPluginActionItem :=
  { actionId := "a1", pluginId := "p1", active := true, onFilter := "all"
    label := "Fix it", icon := none }

/-- C4 failing input: one validation error for plugin p1 and a cached
action item list for p1 (the shape every real validation report has). -/
def c4Report : PublishValidationErrorsReport :=
  { errorItems := [mkErrorItem "p1" "T" "i1"]
    pluginActionItems := .dict [("p1", [c4ActionItem])] }

/-- C4 companion input with an empty action-item dict: from_data then
survives but produces the list-typed slot. -/
def c4ReportNoActions : PublishValidationErrorsReport :=
  { errorItems := [mkErrorItem "p1" "T" "i1"]
    pluginActionItems := .dict [] }

/-- What from_data rebuilds from the serialized c4ReportNoActions. -/
def c4Recreated : PublishValidationErrorsReport :=
  { errorItems := [mkErrorItem "p1" "T" "i1"]
    pluginActionItems := .flat [] }

/-- Minimal always-succeeding plugin used by the witness states. -/
def witnessPlugin (pid : String) : Plugin :=
  { id := pid, name := pid, label := none, order := 0, targets := []
    active := true, optional := false, hasOptionalMixin := false
    instanceEnabled := true, families := [], actions := []
    behavior := fun _ => none }

/-- C8 witness state: plugin p0 passed, record open on plugin p1. -/
def c8Maker : PublishReportMaker :=
  { pluginDataById :=
      [("p0", { create_plugin_data_item (witnessPlugin "p0") with passed := true }),
       ("p1", create_plugin_data_item (witnessPlugin "p1"))]
    currentPlugin := some "p1"
    allInstancesById := [] }

/-- C9 / C10 witness state: one stored record for p1, open. -/
def c10Maker : PublishReportMaker :=
  { pluginDataById := [("p1", create_plugin_data_item (witnessPlugin "p1"))]
    currentPlugin := some "p1"
    allInstancesById := [] }

/-- C10 first result: a validation error on instance A. -/
def c10Res1 : PResult :=
  { inst := some instanceA, duration := 0, records := []
    error := some nonBlockingError
    isValidationError := some true, isBlocking := some true }

/-- C10 second result: a clean success on instance B. -/
def c10Res2 : PResult :=
  { inst := some instanceB, duration := 0, records := []
    error := none, isValidationError := none, isBlocking := none }

/-- The C5 invariant: a recorded blocking validation error implies the
non-specific validation-errors flag. -/
def blocking_implies_errors (c : CtrlState) : Prop :=
  c.publishHasValidationBlockingErrors = true →
    c.publishHasValidationErrors = true

/-- C2 trace property: every ghost trace entry recorded the latch as
exactly (order at or above the validation threshold). -/
def latch_trace_ok (tr : List (Rat × Bool)) : Prop :=
  ∀ e ∈ tr, e.2 = decide (validation_order ≤ e.1)

/-- Plugin lists as delivered by discovery: ascending order. -/
def plugins_sorted (ps : List Plugin) : Prop :=
  List.Pairwise (fun p q => p.order ≤ q.order) ps

/-- Plugins the suspended generator has not yet registered with the
report maker. -/
def GenState.pending : GenState → List Plugin
  | .atTop _ rest => rest
  | .afterUpValidationStop _ p rest => p :: rest
  | .afterErrorsStop _ p rest => p :: rest
  | .inInstances _ _ _ rest => rest
  | .exhausted => []

/-- A generator suspended at one of its stop yields has the latch up. -/
def suspended_latch (c : CtrlState) : GenState → Prop
  | .afterUpValidationStop _ _ _ => c.publishHasValidated = true
  | .afterErrorsStop _ _ _ => c.publishHasValidated = true
  | _ => True

/-- Inductive invariant for the C2 latch-trace argument: the trace so
far is correct, the pending plugins are sorted, once the latch is up all
pending plugins sit at or above the threshold, and a generator suspended
at one of its stop yields has the latch up. -/
def LInv (c : CtrlState) (g : GenState) : Prop :=
  latch_trace_ok c.latchTrace
  ∧ plugins_sorted g.pending
  ∧ (c.publishHasValidated = true →
      ∀ p ∈ g.pending, validation_order ≤ p.order)
  ∧ suspended_latch c g

/-- The two validation-error flags agree between two controller
states. -/
def same_error_flags (c2 c : CtrlState) : Prop :=
  c2.publishHasValidationErrors = c.publishHasValidationErrors
  ∧ c2.publishHasValidationBlockingErrors
      = c.publishHasValidationBlockingErrors

/-- Controller state with the latch up, for the C2 monotonicity
witness. -/
def c2WitnessState : CtrlState :=
  { CtrlState.init with publishHasValidated := true }

/-- One full fresh run: reset, then the requested mode. -/
def fresh_run (cfg : RunConfig) (fuel : Nat) (validateMode : Bool) :
    CtrlState × GenState :=
  let (c, g) := reset_publish cfg CtrlState.init
  if validateMode then validate_call cfg fuel c g
  else publish_call cfg fuel c g

/-- `isinstance(exception, PublishValidationError)` on an optional
exception (False for None). -/
def exc_is_validation_error : Option Exc → Bool
  | some e => e.isValidationError
  | none => false

/-- `getattr(exception, "is_blocking", False)` on an optional
exception. -/
def exc_is_blocking : Option Exc → Bool
  | some e => e.isBlocking
  | none => false

/-- A blocking PublishValidationError payload. -/
def blockingError : Exc := { nonBlockingError with isBlocking := true }

/-- C6 witness action with trigger condition "all". -/
def c6ActionAll : PAction :=
  { id := "aAll", name := "AAll", label := none, icon := none
    active := true, onCond := "all" }

/-- C6 witness action with trigger condition "failed". -/
def c6ActionFailed : PAction :=
  { id := "aFailed", name := "AFailed", label := none, icon := none
    active := true, onCond := "failed" }

/-- C6 witness plugin carrying both actions. -/
def c6Plugin : Plugin :=
  { witnessPlugin "c6p" with actions := [c6ActionAll, c6ActionFailed] }

/-- C6 witness proxy. -/
def c6Proxy : PublishPluginsProxy := PublishPluginsProxy.init [c6Plugin]

/-! Theorems. -/

/-- The validation threshold literal agrees with the source formula
ValidatorOrder + PLUGIN_ORDER_OFFSET. -/
theorem validation_order_def :
    validation_order = ValidatorOrder + PLUGIN_ORDER_OFFSET := by
  unfold validation_order ValidatorOrder PLUGIN_ORDER_OFFSET
  rw [Rat.mk'_eq_divInt, Rat.mk'_eq_divInt, Rat.divInt_eq_div, Rat.divInt_eq_div]
  norm_num

/-- PLUGIN_ORDER_OFFSET is the float 0.5 of the source. -/
theorem PLUGIN_ORDER_OFFSET_def : PLUGIN_ORDER_OFFSET = 1 / 2 := by
  unfold PLUGIN_ORDER_OFFSET
  rw [Rat.mk'_eq_divInt, Rat.divInt_eq_div]
  norm_num

/-- Looking a key up after an in-place update maps the stored value. -/
theorem dictLookup_update_self {α : Type} (l : List (String × α))
    (k : String) (f : α → α) :
    dictLookup (dictUpdate l k f) k = (dictLookup l k).map f := by
  induction l with
  | nil => simp [dictLookup, dictUpdate]
  | cons kv rest ih =>
    obtain ⟨k2, v⟩ := kv
    by_cases h : k2 = k
    · simp [dictLookup, dictUpdate, h]
    · simp [dictLookup, dictUpdate, h, ih]

/-- In-place update leaves other keys untouched. -/
theorem dictLookup_update_ne {α : Type} (l : List (String × α))
    (k k' : String) (f : α → α) (h : k' ≠ k) :
    dictLookup (dictUpdate l k f) k' = dictLookup l k' := by
  induction l with
  | nil => simp [dictLookup, dictUpdate]
  | cons kv rest ih =>
    obtain ⟨k2, v⟩ := kv
    by_cases h2 : k2 = k
    · subst h2
      simp [dictLookup, dictUpdate, Ne.symm h]
    · by_cases h3 : k2 = k' <;> simp [dictLookup, dictUpdate, h2, h3, h, ih]

/-- Lookup distributes over append, preferring the left list. -/
theorem dictLookup_append {α : Type} (l1 l2 : List (String × α))
    (k : String) :
    dictLookup (l1 ++ l2) k =
      match dictLookup l1 k with
      | some v => some v
      | none => dictLookup l2 k := by
  induction l1 with
  | nil => simp [dictLookup]
  | cons kv rest ih =>
    obtain ⟨k2, v⟩ := kv
    by_cases h : k2 = k <;> simp [dictLookup, h, ih]

/-- A key is absent exactly when it is not among the stored keys. -/
theorem dictLookup_eq_none_iff {α : Type} (l : List (String × α))
    (k : String) :
    dictLookup l k = none ↔ k ∉ l.map (fun kv => kv.1) := by
  induction l with
  | nil => simp [dictLookup]
  | cons kv rest ih =>
    obtain ⟨k2, v⟩ := kv
    by_cases h : k2 = k
    · subst h; simp [dictLookup]
    · simp [dictLookup, h, ih, Ne.symm h]

/-- A successful lookup is a membership witness. -/
theorem mem_of_dictLookup {α : Type} {l : List (String × α)} {k : String}
    {v : α} (h : dictLookup l k = some v) : (k, v) ∈ l := by
  induction l with
  | nil => simp [dictLookup] at h
  | cons kv rest ih =>
    obtain ⟨k2, v2⟩ := kv
    by_cases h2 : k2 = k
    · subst h2
      simp [dictLookup] at h
      simp [h]
    · simp [dictLookup, h2] at h
      simp [ih h]

/-- With distinct keys, membership determines the lookup result. -/
theorem dictLookup_of_mem_nodup {α : Type} {l : List (String × α)}
    {k : String} {v : α}
    (hnodup : (l.map (fun kv => kv.1)).Nodup) (h : (k, v) ∈ l) :
    dictLookup l k = some v := by
  induction l with
  | nil => simp at h
  | cons kv rest ih =>
    obtain ⟨k2, v2⟩ := kv
    simp only [List.map_cons, List.nodup_cons] at hnodup
    rcases List.mem_cons.mp h with h1 | h1
    · cases h1
      simp [dictLookup]
    · by_cases h2 : k2 = k
      · subst h2
        exact absurd (List.mem_map.mpr ⟨(k2, v), h1, rfl⟩) hnodup.1
      · simpa [dictLookup, h2] using ih hnodup.2 h1

/-- Entries of an in-place update come from the original list, possibly
with the function applied. -/
theorem mem_dictUpdate {α : Type} {l : List (String × α)} {k : String}
    {f : α → α} {kv : String × α} (h : kv ∈ dictUpdate l k f) :
    kv ∈ l ∨ ∃ y, (kv.1, y) ∈ l ∧ kv.2 = f y := by
  induction l with
  | nil => simp [dictUpdate] at h
  | cons kv2 rest ih =>
    obtain ⟨k2, v2⟩ := kv2
    by_cases h2 : k2 = k
    · subst h2
      simp [dictUpdate] at h
      rcases h with h3 | h3
      · exact Or.inr ⟨v2, by simp [h3], by simp [h3]⟩
      · exact Or.inl (List.mem_cons_of_mem _ h3)
    · simp [dictUpdate, h2] at h
      rcases h with h3 | h3
      · exact Or.inl (by simp [h3])
      · rcases ih h3 with h4 | ⟨y, hy, he⟩
        · exact Or.inl (List.mem_cons_of_mem _ h4)
        · exact Or.inr ⟨y, List.mem_cons_of_mem _ hy, he⟩

/-- In-place update preserves the key list. -/
theorem keys_dictUpdate {α : Type} (l : List (String × α)) (k : String)
    (f : α → α) :
    (dictUpdate l k f).map (fun kv => kv.1) = l.map (fun kv => kv.1) := by
  induction l with
  | nil => simp [dictUpdate]
  | cons kv rest ih =>
    obtain ⟨k2, v⟩ := kv
    by_cases h : k2 = k <;> simp [dictUpdate, h, ih]

/-- Assigning a key makes it looked up. -/
theorem dictLookup_assign_self {α : Type} (l : List (String × α))
    (k : String) (v : α) :
    dictLookup (dictAssign l k v) k = some v := by
  unfold dictAssign
  by_cases h : (dictLookup l k).isSome
  · rcases Option.isSome_iff_exists.mp h with ⟨w, hw⟩
    simp [h, dictLookup_update_self, hw]
  · rw [if_neg h, dictLookup_append]
    cases h2 : dictLookup l k
    · simp [dictLookup]
    · simp [h2] at h

/-- C6: after set_plugin_actions(plugin_id, exception) the stored active
set is exactly the filter of the plugin's declared actions; an action is
in that filter iff it is declared active and its trigger condition
matches — always for "all", for "failedOrWarning" iff the exception is a
validation error, for "failed" iff it is a blocking validation error;
and with exception None the active set is exactly the declared-active
"all" actions. -/
theorem C6_set_plugin_actions_active_set (proxy : PublishPluginsProxy)
    (pluginId : String) (plugin : Plugin) (exception : Option Exc)
    (a : PAction)
    (h : dictLookup proxy.pluginsById pluginId = some plugin) :
    (∃ proxy2, proxy.set_plugin_actions pluginId exception = some proxy2
        ∧ dictLookup proxy2.actionIdsByPluginId pluginId
            = some ((filter_plugin_active_actions plugin.actions exception).map
                (fun a => a.id)))
    ∧ (a ∈ filter_plugin_active_actions plugin.actions exception ↔
        (a ∈ plugin.actions ∧ a.active = true ∧
          (a.onCond = "all"
            ∨ (a.onCond = "failedOrWarning"
                ∧ exc_is_validation_error exception = true)
            ∨ (a.onCond = "failed"
                ∧ exc_is_validation_error exception = true
                ∧ exc_is_blocking exception = true))))
    ∧ filter_plugin_active_actions plugin.actions none
        = plugin.actions.filter (fun a => a.active && (a.onCond == "all")) := by
  refine ⟨?_, ?_, ?_⟩
  · unfold PublishPluginsProxy.set_plugin_actions
    rw [h]
    exact ⟨_, rfl, by simp [dictLookup_assign_self]⟩
  · cases exception with
    | none =>
      simp [filter_plugin_active_actions, List.mem_filter,
        exc_is_validation_error, exc_is_blocking, and_assoc, or_assoc]
    | some e =>
      simp [filter_plugin_active_actions, List.mem_filter,
        exc_is_validation_error, exc_is_blocking, and_assoc, or_assoc]
  · apply List.filter_congr
    intro x _
    simp [filter_plugin_active_actions]

/-- C6 witness: the theorem applied to a concrete proxy holding one
plugin with an "all" action and a "failed" action, with a blocking
validation error. -/
theorem C6_witness :
    dictLookup c6Proxy.pluginsById "c6p" = some c6Plugin
    ∧ ((∃ proxy2,
          c6Proxy.set_plugin_actions "c6p" (some blockingError) = some proxy2
          ∧ dictLookup proxy2.actionIdsByPluginId "c6p"
              = some ((filter_plugin_active_actions c6Plugin.actions
                    (some blockingError)).map (fun a => a.id)))
        ∧ (c6ActionFailed ∈ filter_plugin_active_actions c6Plugin.actions
              (some blockingError) ↔
            (c6ActionFailed ∈ c6Plugin.actions ∧ c6ActionFailed.active = true ∧
              (c6ActionFailed.onCond = "all"
                ∨ (c6ActionFailed.onCond = "failedOrWarning"
                    ∧ exc_is_validation_error (some blockingError) = true)
                ∨ (c6ActionFailed.onCond = "failed"
                    ∧ exc_is_validation_error (some blockingError) = true
                    ∧ exc_is_blocking (some blockingError) = true))))
        ∧ filter_plugin_active_actions c6Plugin.actions none
            = c6Plugin.actions.filter (fun a => a.active && (a.onCond == "all"))) :=
  ⟨rfl, C6_set_plugin_actions_active_set c6Proxy "c6p" c6Plugin
    (some blockingError) c6ActionFailed rfl⟩

/-- C1 (counterexample): in the 3-plugin interactive validate() scenario
the run does pause at progress 1 with the latch up, but it pauses at the
up-to-validation yield BEFORE plugin p1 executes, so
publish_has_validation_errors is false in the paused state, not true as
the claim asserts. -/
theorem C1_counterexample :
    c1Run.1.publishProgress = 1 ∧ c1Run.1.publishIsRunning = false
      ∧ c1Run.1.publishHasValidated = true
      ∧ c1Run.1.publishHasValidationErrors = false := by
  refine ⟨by decide, by decide, by decide, by decide⟩

/-- C1 (amended): in that scenario plugin p0 executes exactly once (for
A; B is skipped), the latch becomes true at plugin p1's iteration, and
the run pauses immediately at progress 1 — before p1 executes, because
validate() stops at the validation boundary — with both validation-error
flags false and no crash or fault. -/
theorem C1_amended :
    c1Run.1.executedUnits = [("p0", some "A")]
      ∧ c1Run.1.publishHasValidated = true
      ∧ c1Run.1.publishProgress = 1
      ∧ c1Run.1.publishIsRunning = false
      ∧ c1Run.1.publishHasFinished = false
      ∧ c1Run.1.publishHasValidationErrors = false
      ∧ c1Run.1.publishHasValidationBlockingErrors = false
      ∧ c1Run.1.publishHasCrashed = false
      ∧ c1Run.1.fault = false := by
  refine ⟨by decide, by decide, by decide, by decide, by decide, by decide,
    by decide, by decide, by decide⟩

/-- C3 (counterexample): group_items_by_title groups plugin-major — all
of P1's title groups precede P2's — so the grouped order for
[(P1,A), (P2,B), (P1,A), (P1,C)] is not the claimed
[(P1,A), (P2,B), (P1,C)]. -/
theorem C3_counterexample :
    (c3Report.group_items_by_title).map
        (fun l => l.map (fun g => (g.pluginId, g.title)))
      ≠ some [("P1", "A"), ("P2", "B"), ("P1", "C")] := by decide

/-- C3 (amended): grouping preserves first-seen plugin order and, within
each plugin, first-seen title order, with all groups of one plugin kept
together: the output is [(P1,A) with 2 items, (P1,C) with 1, (P2,B)
with 1]. -/
theorem C3_amended :
    (c3Report.group_items_by_title).map
        (fun l => l.map (fun g => (g.pluginId, g.title, g.errorItems.length)))
      = some [("P1", "A", 2), ("P1", "C", 1), ("P2", "B", 1)] := by decide

/-- C4 (code bug): from_data iterates the serialized plugin_action_items
dict directly, so it consumes the dict KEYS: on any report with a cached
action entry the reconstruction raises TypeError, and even with an empty
dict the rebuilt slot is a list, on which group_items_by_title's dict
subscript raises — while the original report groups fine.  The
round-trip promised by the from_data docstring therefore fails for every
report with at least one error item. -/
theorem C4_roundtrip_code_bug :
    c4Report.to_data.map PublishValidationErrorsReport.from_data
        = some (Except.error "TypeError: argument of type str is not a mapping: p1")
      ∧ c4ReportNoActions.to_data.map PublishValidationErrorsReport.from_data
        = some (Except.ok c4Recreated)
      ∧ c4Recreated.group_items_by_title = none
      ∧ (c4Report.group_items_by_title).isSome = true := by
  refine ⟨rfl, rfl, by decide, by decide⟩

/-- C7 (counterexample): after the paused interactive validate() run
with a recorded non-blocking error, ignore_non_blocking_errors() resets
and automatically re-runs validate(), but the resumed run pauses again
at the validation boundary: publish_has_finished is false, not true as
the claim asserts. -/
theorem C7_counterexample :
    c7Resumed.1.publishHasFinished = false
      ∧ c7Resumed.1.publishIsRunning = false
      ∧ c7Resumed.1.fault = false := by
  refine ⟨by decide, by decide, by decide⟩

/-- C7 (amended): the paused premise holds (interactive validate()
records the non-blocking error and pauses at the boundary with the
non-specific flag set), and ignore_non_blocking_errors() then fully
resets and automatically re-runs validate() from the top: the collector
and the validator execute again, the ignored non-blocking error no
longer sets the validation-error flags (so it no longer halts progress
at the validator), the publish report still records the validator as
errored non-blocking, and the resumed validate() run pauses again at the
validation boundary at progress 2 with finished = false — it never
reaches finished = true. -/
theorem C7_amended :
    (c7Paused.1.publishIsRunning = false
        ∧ c7Paused.1.publishHasValidationErrors = true
        ∧ c7Paused.1.publishHasValidationBlockingErrors = false
        ∧ c7Paused.1.publishHasFinished = false)
      ∧ c7Resumed.1.btnClicked = some "validate"
      ∧ c7Resumed.1.executedUnits = [("p0", some "A"), ("pv", some "A")]
      ∧ c7Resumed.1.publishHasValidationErrors = false
      ∧ (dictLookup c7Resumed.1.report.pluginDataById "pv").map
            (fun d => (d.errored, d.isBlocking))
          = some (true, false)
      ∧ c7Resumed.1.publishProgress = 2
      ∧ c7Resumed.1.publishIsRunning = false
      ∧ c7Resumed.1.publishHasFinished = false
      ∧ c7Resumed.1.fault = false := by
  refine ⟨⟨by decide, by decide, by decide, by decide⟩, by decide, by decide,
    by decide, by decide, by decide, by decide, by decide, by decide⟩

/-- The never-ran extension step preserves successful lookups. -/
theorem dictLookup_report_extend_step (acc : List (String × PluginData))
    (p : Plugin) (k : String) (v : PluginData)
    (h : dictLookup acc k = some v) :
    dictLookup (report_extend_step acc p) k = some v := by
  unfold report_extend_step
  split
  · exact h
  · rw [dictLookup_append, h]

/-- The never-ran extension pass preserves successful lookups. -/
theorem dictLookup_foldl_extend (pubs : List Plugin)
    (acc : List (String × PluginData)) (k : String) (v : PluginData)
    (h : dictLookup acc k = some v) :
    dictLookup (pubs.foldl report_extend_step acc) k = some v := by
  induction pubs generalizing acc with
  | nil => exact h
  | cons p rest ih => exact ih _ (dictLookup_report_extend_step acc p k v h)

/-- Entries of the extension pass come from the base dict or are fresh
not-yet-processed items for keys absent from the base dict. -/
theorem mem_foldl_extend {pubs : List Plugin}
    {acc : List (String × PluginData)} {kv : String × PluginData}
    (h : kv ∈ pubs.foldl report_extend_step acc) :
    kv ∈ acc ∨ ∃ p, kv = (p.id, create_plugin_data_item p)
      ∧ dictLookup acc p.id = none := by
  induction pubs generalizing acc with
  | nil => exact Or.inl h
  | cons p rest ih =>
    rcases ih h with h1 | ⟨q, hq, hnone⟩
    · by_cases hc : (dictLookup acc p.id).isSome = true
      · unfold report_extend_step at h1
        rw [if_pos hc] at h1
        exact Or.inl h1
      · unfold report_extend_step at h1
        rw [if_neg hc] at h1
        rcases List.mem_append.mp h1 with h2 | h2
        · exact Or.inl h2
        · refine Or.inr ⟨p, by simpa using h2, ?_⟩
          cases hl : dictLookup acc p.id with
          | none => rfl
          | some w => rw [hl] at hc; exact absurd rfl hc
    · refine Or.inr ⟨q, hq, ?_⟩
      cases hl : dictLookup acc q.id with
      | none => rfl
      | some w =>
        rw [dictLookup_report_extend_step acc p q.id w hl] at hnone
        cases hnone

/-- Core C8 argument: if the forced copy of the stored records has
distinct keys, record ids matching their keys, and holds a passed record
at the given key, then the snapshot reports that key as passed and no
snapshot entry with that id shows passed = false. -/
theorem report_passed_at_key (s : PublishReportMaker) (pid : String)
    (pubs : List Plugin) (V : PluginData)
    (hnodup : ((forced_dict s).map (fun kv => kv.1)).Nodup)
    (hcoh : ∀ kv ∈ forced_dict s, (kv.2 : PluginData).id = kv.1)
    (hlook : dictLookup (forced_dict s) pid = some V)
    (hV : V.passed = true) :
    (∃ d1, dictLookup (get_report_dict s pubs) pid = some d1
        ∧ d1.passed = true)
    ∧ ∀ x ∈ s.get_report pubs, x.id = pid → x.passed = true := by
  constructor
  · exact ⟨V, dictLookup_foldl_extend pubs _ pid V hlook, hV⟩
  · intro x hx hxid
    rcases List.mem_map.mp hx with ⟨kv, hkv, hkv2⟩
    rcases mem_foldl_extend hkv with h1 | ⟨p, hp, hnone⟩
    · have hk : kv.1 = pid := by rw [← hcoh kv h1, hkv2, hxid]
      have h3 := dictLookup_of_mem_nodup hnodup h1
      rw [hk, hlook] at h3
      have : V = kv.2 := Option.some.inj h3
      rw [← hkv2, ← this]
      exact hV
    · have hpid : p.id = pid := by
        rw [← hxid, ← hkv2, hp]
        simp [create_plugin_data_item]
      rw [hpid, hlook] at hnone
      cases hnone

/-- The get_report passed-forcing function preserves the record id. -/
theorem forced_passed_id (pd : PluginData) :
    (if pd.passed then pd else { pd with passed := true }).id = pd.id := by
  split <;> rfl

/-- In-place updates with an id-preserving function keep ids matching
keys. -/
theorem coherence_dictUpdate {l : List (String × PluginData)} {k : String}
    {f : PluginData → PluginData}
    (hcoh : ∀ kv ∈ l, (kv.2 : PluginData).id = kv.1)
    (hf : ∀ y, (f y).id = y.id) :
    ∀ kv ∈ dictUpdate l k f, (kv.2 : PluginData).id = kv.1 := by
  intro kv hkv
  rcases mem_dictUpdate hkv with h | ⟨y, hy, he⟩
  · exact hcoh kv h
  · rw [he, hf y]
    exact hcoh (kv.1, y) hy

/-- C8: while a plugin record is open (the run paused mid-plugin),
get_report always surfaces that plugin with passed = true, the snapshot
never contains the open plugin with passed = false, and after the run
resumes with the next plugin (add_plugin_iter) the snapshot still shows
the formerly open plugin with passed = true. -/
theorem C8_get_report_open_plugin_passed (r : PublishReportMaker)
    (pid : String) (p2 : Plugin) (context : List PInstance)
    (pubs pubs2 : List Plugin)
    (hnodup : (r.pluginDataById.map (fun kv => kv.1)).Nodup)
    (hcoh : ∀ kv ∈ r.pluginDataById, (kv.2 : PluginData).id = kv.1)
    (hcur : r.currentPlugin = some pid)
    (hmem : (dictLookup r.pluginDataById pid).isSome = true) :
    ((∃ d1, dictLookup (get_report_dict r pubs) pid = some d1
        ∧ d1.passed = true)
      ∧ ∀ x ∈ r.get_report pubs, x.id = pid → x.passed = true)
    ∧ (∀ r2, r.add_plugin_iter p2 context = Except.ok r2 →
        ((∃ d1, dictLookup (get_report_dict r2 pubs2) pid = some d1
            ∧ d1.passed = true)
          ∧ ∀ x ∈ r2.get_report pubs2, x.id = pid → x.passed = true)) := by
  rcases Option.isSome_iff_exists.mp hmem with ⟨d, hd⟩
  have hfd : forced_dict r = dictUpdate r.pluginDataById pid
      (fun pd => if pd.passed then pd else { pd with passed := true }) := by
    unfold forced_dict
    rw [hcur]
  constructor
  · apply report_passed_at_key r pid pubs
      (if d.passed then d else { d with passed := true })
    · rw [hfd, keys_dictUpdate]
      exact hnodup
    · rw [hfd]
      exact coherence_dictUpdate hcoh forced_passed_id
    · rw [hfd, dictLookup_update_self, hd]
      rfl
    · by_cases hp : d.passed = true <;> simp [hp]
  · intro r2 h2
    unfold PublishReportMaker.add_plugin_iter at h2
    simp only [hcur] at h2
    by_cases hf : (dictLookup
        (dictUpdate r.pluginDataById pid
          (fun d => { d with passed := true })) p2.id).isSome = true
    · simp [PublishReportMaker.add_plugin_data_item, hf] at h2
    · have hfn : dictLookup (dictUpdate r.pluginDataById pid
          (fun d => { d with passed := true })) p2.id = none := by
        cases hl : dictLookup (dictUpdate r.pluginDataById pid
            (fun d => { d with passed := true })) p2.id with
        | none => rfl
        | some w => rw [hl] at hf; exact absurd rfl hf
      have hne : p2.id ≠ pid := by
        intro he
        rw [he, dictLookup_update_self, hd] at hfn
        cases hfn
      have hbn : dictLookup r.pluginDataById p2.id = none := by
        rw [dictLookup_update_ne _ _ _ _ hne] at hfn
        exact hfn
      unfold PublishReportMaker.add_plugin_data_item at h2
      rw [if_neg hf] at h2
      injection h2 with h2
      subst h2
      have hcoh2 : ∀ kv ∈ dictUpdate r.pluginDataById pid
            (fun d => { d with passed := true }) ++
            [(p2.id, create_plugin_data_item p2)],
          (kv.2 : PluginData).id = kv.1 := by
        intro kv hkv
        rcases List.mem_append.mp hkv with h3 | h3
        · exact coherence_dictUpdate
            (f := fun d => { d with passed := true }) hcoh
            (fun y => rfl) kv h3
        · rw [List.mem_singleton.mp h3]
          rfl
      have hnodup2 : ((dictUpdate r.pluginDataById pid
            (fun d => { d with passed := true }) ++
            [(p2.id, create_plugin_data_item p2)]).map
          (fun kv => kv.1)).Nodup := by
        rw [List.map_append, List.map_singleton]
        rw [List.nodup_append]
        refine ⟨by rw [keys_dictUpdate]; exact hnodup, List.nodup_singleton _, ?_⟩
        intro a ha hb
        simp at hb
        subst hb
        rw [keys_dictUpdate] at ha
        exact (dictLookup_eq_none_iff _ _).mp hbn ha
      apply report_passed_at_key _ pid pubs2 { d with passed := true }
      · unfold forced_dict
        simp only []
        rw [keys_dictUpdate]
        exact hnodup2
      · unfold forced_dict
        simp only []
        exact coherence_dictUpdate hcoh2 forced_passed_id
      · unfold forced_dict
        simp only []
        rw [dictLookup_update_ne _ _ _ _ (Ne.symm hne), dictLookup_append,
          dictLookup_update_self, hd]
        rfl
      · rfl

/-- C8 witness: the theorem applied to a concrete maker with plugin p0
already passed and plugin p1 open, resumed with plugin p2. -/
theorem C8_witness :
    ((c8Maker.pluginDataById.map (fun kv => kv.1)).Nodup
      ∧ (∀ kv ∈ c8Maker.pluginDataById, (kv.2 : PluginData).id = kv.1)
      ∧ c8Maker.currentPlugin = some "p1"
      ∧ (dictLookup c8Maker.pluginDataById "p1").isSome = true)
    ∧ (((∃ d1, dictLookup (get_report_dict c8Maker []) "p1" = some d1
          ∧ d1.passed = true)
        ∧ ∀ x ∈ c8Maker.get_report [], x.id = "p1" → x.passed = true)
      ∧ (∀ r2, c8Maker.add_plugin_iter (witnessPlugin "p2") []
            = Except.ok r2 →
          ((∃ d1, dictLookup (get_report_dict r2 []) "p1" = some d1
              ∧ d1.passed = true)
            ∧ ∀ x ∈ r2.get_report [], x.id = "p1" → x.passed = true))) :=
  ⟨⟨by decide, by decide, rfl, by decide⟩,
    C8_get_report_open_plugin_passed c8Maker "p1" (witnessPlugin "p2") []
      [] [] (by decide) (by decide) rfl (by decide)⟩

/-- C9: registering a plugin data record under an id that already has a
stored record returns the duplicate-registration ValueError — raised
before any mutation, so the stored records are unchanged (the error
result carries no new state) — and for any two plugin objects sharing
one id the second registration always fails. -/
theorem C9_duplicate_plugin_id (r r1 : PublishReportMaker) (p q : Plugin)
    (hdup : (dictLookup r.pluginDataById p.id).isSome = true)
    (hid : q.id = p.id) :
    r.add_plugin_data_item p
        = Except.error ("Plugin " ++ p.name ++ " is already stored")
    ∧ (∀ r2, r1.add_plugin_data_item p = Except.ok r2 →
        r2.add_plugin_data_item q
          = Except.error ("Plugin " ++ q.name ++ " is already stored")) := by
  constructor
  · simp [PublishReportMaker.add_plugin_data_item, hdup]
  · intro r2 h2
    by_cases hp : (dictLookup r1.pluginDataById p.id).isSome = true
    · simp [PublishReportMaker.add_plugin_data_item, hp] at h2
    · simp only [PublishReportMaker.add_plugin_data_item, hp, if_false,
        Bool.false_eq_true, Except.ok.injEq] at h2
      subst h2
      simp only [PublishReportMaker.add_plugin_data_item, hid,
        dictLookup_append]
      cases h3 : dictLookup r1.pluginDataById p.id with
      | some w => simp [h3] at hp
      | none => simp [dictLookup]

/-- C9 witness: the theorem applied to a report maker already holding
p1, and to an empty maker with two distinct plugin objects sharing the
id p1. -/
theorem C9_witness :
    (dictLookup c10Maker.pluginDataById (witnessPlugin "p1").id).isSome = true
    ∧ ({ witnessPlugin "p1" with name := "Other" } : Plugin).id
        = (witnessPlugin "p1").id
    ∧ (c10Maker.add_plugin_data_item (witnessPlugin "p1")
          = Except.error ("Plugin " ++ (witnessPlugin "p1").name
              ++ " is already stored")
        ∧ (∀ r2, PublishReportMaker.empty.add_plugin_data_item
              (witnessPlugin "p1") = Except.ok r2 →
            r2.add_plugin_data_item
                ({ witnessPlugin "p1" with name := "Other" } : Plugin)
              = Except.error ("Plugin "
                  ++ ({ witnessPlugin "p1" with name := "Other" } : Plugin).name
                  ++ " is already stored"))) :=
  ⟨by decide, rfl,
    C9_duplicate_plugin_id c10Maker PublishReportMaker.empty
      (witnessPlugin "p1") { witnessPlugin "p1" with name := "Other" }
      (by decide) rfl⟩

/-- C10: add_result overwrites the current plugin record's errored and
is_blocking flags with the latest result's values only — False when the
keys are absent — rather than accumulating them: after two results the
flags equal the second result's values whatever the first carried, so a
validation error on one instance followed by a success on a later
instance ends with errored = false and is_blocking = false. -/
theorem C10_add_result_overwrites (r : PublishReportMaker) (pid : String)
    (res1 res2 : PResult) (hcur : r.currentPlugin = some pid) :
    (dictLookup ((r.add_result res1).add_result res2).pluginDataById pid).map
        (fun d => (d.errored, d.isBlocking))
      = (dictLookup r.pluginDataById pid).map
          (fun _ => (res2.isValidationError.getD false,
            res2.isBlocking.getD false)) := by
  simp only [PublishReportMaker.add_result, hcur]
  simp [dictLookup_update_self, Option.map_map]
  cases dictLookup r.pluginDataById pid <;> simp [Function.comp]

/-- C10 witness: the theorem applied to a concrete open record, a first
result carrying a validation error on instance A and a second clean
result on instance B: the flags end at (false, false). -/
theorem C10_witness :
    c10Maker.currentPlugin = some "p1"
    ∧ (dictLookup ((c10Maker.add_result c10Res1).add_result
            c10Res2).pluginDataById "p1").map
          (fun d => (d.errored, d.isBlocking))
        = (dictLookup c10Maker.pluginDataById "p1").map
            (fun _ => (c10Res2.isValidationError.getD false,
              c10Res2.isBlocking.getD false)) :=
  ⟨rfl, C10_add_result_overwrites c10Maker "p1" c10Res1 c10Res2 rfl⟩

/-- Facts about a yield produced from the add_plugin_iter point of the
plugin body: the error flags and latch are untouched, the resume point
has at most the remaining plugins pending and is not a stop suspension,
and the ghost trace stays correct when the latch agrees with the
threshold test on the current plugin. -/
theorem gen_step_r2_inl {cfg : RunConfig} {c : CtrlState} {idx : Nat}
    {p : Plugin} {rest : List Plugin} {c2 : CtrlState} {item : MainItem}
    {g2 : GenState}
    (h : gen_step_r2 cfg c idx p rest = Sum.inl (c2, item, g2)) :
    same_error_flags c2 c
    ∧ c2.publishHasValidated = c.publishHasValidated
    ∧ (g2.pending = rest ∨ g2.pending = [])
    ∧ suspended_latch c2 g2
    ∧ (latch_trace_ok c.latchTrace →
        c.publishHasValidated = decide (validation_order ≤ p.order) →
        latch_trace_ok c2.latchTrace) := by
  have htr : ∀ (c2 : CtrlState), c2.latchTrace
        = c.latchTrace ++ [(p.order, c.publishHasValidated)] →
      latch_trace_ok c.latchTrace →
      c.publishHasValidated = decide (validation_order ≤ p.order) →
      latch_trace_ok c2.latchTrace := by
    intro c2 he h1 h2 e hmem
    rw [he] at hmem
    rcases List.mem_append.mp hmem with h3 | h3
    · exact h1 e h3
    · rw [List.mem_singleton.mp h3, h2]
  unfold gen_step_r2 at h
  dsimp only at h
  split at h
  · cases h
    exact ⟨⟨rfl, rfl⟩, rfl, Or.inr rfl, trivial, fun h1 _ => h1⟩
  · split at h
    · cases h
    · split at h
      · split at h
        · cases h
        · split at h
          · cases h
            exact ⟨⟨rfl, rfl⟩, rfl, Or.inl rfl, trivial, htr _ rfl⟩
          · cases h
      · split at h
        · cases h
          exact ⟨⟨rfl, rfl⟩, rfl, Or.inl rfl, trivial, htr _ rfl⟩
        · cases h

/-- Facts about falling through the add_plugin_iter point of the plugin
body to the next plugin. -/
theorem gen_step_r2_inr {cfg : RunConfig} {c : CtrlState} {idx : Nat}
    {p : Plugin} {rest : List Plugin} {c2 : CtrlState}
    (h : gen_step_r2 cfg c idx p rest = Sum.inr c2) :
    same_error_flags c2 c
    ∧ c2.publishHasValidated = c.publishHasValidated
    ∧ (latch_trace_ok c.latchTrace →
        c.publishHasValidated = decide (validation_order ≤ p.order) →
        latch_trace_ok c2.latchTrace) := by
  have htr : ∀ (c2 : CtrlState), c2.latchTrace
        = c.latchTrace ++ [(p.order, c.publishHasValidated)] →
      latch_trace_ok c.latchTrace →
      c.publishHasValidated = decide (validation_order ≤ p.order) →
      latch_trace_ok c2.latchTrace := by
    intro c2 he h1 h2 e hmem
    rw [he] at hmem
    rcases List.mem_append.mp hmem with h3 | h3
    · exact h1 e h3
    · rw [List.mem_singleton.mp h3, h2]
  unfold gen_step_r2 at h
  dsimp only at h
  split at h
  · cases h
  · split at h
    · cases h
      exact ⟨⟨rfl, rfl⟩, rfl, htr _ rfl⟩
    · split at h
      · split at h
        · cases h
          exact ⟨⟨rfl, rfl⟩, rfl, htr _ rfl⟩
        · split at h
          · cases h
          · cases h
            exact ⟨⟨rfl, rfl⟩, rfl, htr _ rfl⟩
      · split at h
        · cases h
        · cases h
          exact ⟨⟨rfl, rfl⟩, rfl, htr _ rfl⟩

/-- Facts about a yield produced from the validation-errors check point
of the plugin body. -/
theorem gen_step_r1_inl {cfg : RunConfig} {c : CtrlState} {idx : Nat}
    {p : Plugin} {rest : List Plugin} {c2 : CtrlState} {item : MainItem}
    {g2 : GenState}
    (h : gen_step_r1 cfg c idx p rest = Sum.inl (c2, item, g2)) :
    same_error_flags c2 c
    ∧ c2.publishHasValidated = c.publishHasValidated
    ∧ (g2.pending = rest ∨ g2.pending = [] ∨ g2.pending = p :: rest)
    ∧ suspended_latch c2 g2
    ∧ (latch_trace_ok c.latchTrace →
        c.publishHasValidated = decide (validation_order ≤ p.order) →
        latch_trace_ok c2.latchTrace) := by
  unfold gen_step_r1 at h
  split at h
  · rename_i hv
    split at h
    · split at h
      · cases h
        exact ⟨⟨rfl, rfl⟩, rfl, Or.inr (Or.inr rfl), hv, fun h1 _ => h1⟩
      · have h2 := gen_step_r2_inl h
        exact ⟨h2.1, h2.2.1, Or.imp id Or.inl h2.2.2.1, h2.2.2.2.1,
          h2.2.2.2.2⟩
    · split at h
      · cases h
        exact ⟨⟨rfl, rfl⟩, rfl, Or.inr (Or.inr rfl), hv, fun h1 _ => h1⟩
      · have h2 := gen_step_r2_inl h
        exact ⟨h2.1, h2.2.1, Or.imp id Or.inl h2.2.2.1, h2.2.2.2.1,
          h2.2.2.2.2⟩
  · have h2 := gen_step_r2_inl h
    exact ⟨h2.1, h2.2.1, Or.imp id Or.inl h2.2.2.1, h2.2.2.2.1, h2.2.2.2.2⟩

/-- Facts about falling through the validation-errors check point of
the plugin body to the next plugin. -/
theorem gen_step_r1_inr {cfg : RunConfig} {c : CtrlState} {idx : Nat}
    {p : Plugin} {rest : List Plugin} {c2 : CtrlState}
    (h : gen_step_r1 cfg c idx p rest = Sum.inr c2) :
    same_error_flags c2 c
    ∧ c2.publishHasValidated = c.publishHasValidated
    ∧ (latch_trace_ok c.latchTrace →
        c.publishHasValidated = decide (validation_order ≤ p.order) →
        latch_trace_ok c2.latchTrace) := by
  unfold gen_step_r1 at h
  split at h
  · split at h
    · split at h
      · cases h
      · exact gen_step_r2_inr h
    · split at h
      · cases h
      · exact gen_step_r2_inr h
  · exact gen_step_r2_inr h

/-- The loop-top update leaves error flags, intent flag and trace alone
and ors the threshold test into the latch. -/
theorem gen_top_update_facts (c : CtrlState) (idx : Nat) (p : Plugin) :
    same_error_flags (gen_top_update c idx p) c
    ∧ (gen_top_update c idx p).latchTrace = c.latchTrace
    ∧ (gen_top_update c idx p).publishHasValidated
        = (c.publishHasValidated || decide (validation_order ≤ p.order)) := by
  unfold gen_top_update
  by_cases hv : c.publishHasValidated = true <;>
    simp [hv, same_error_flags]

/-- Facts about running the plugin loop from its top: the error flags
are untouched, the latch never reverts, and from a correct trace with
sorted pending plugins (all at or above the threshold once the latch is
up) the loop maintains the full invariant. -/
theorem gen_top_facts (cfg : RunConfig) (l : List Plugin) :
    ∀ (c : CtrlState) (idx : Nat),
    same_error_flags (gen_top cfg c idx l).1 c
    ∧ (c.publishHasValidated = true →
        (gen_top cfg c idx l).1.publishHasValidated = true)
    ∧ (latch_trace_ok c.latchTrace → plugins_sorted l →
        (c.publishHasValidated = true →
          ∀ p ∈ l, validation_order ≤ p.order) →
        LInv (gen_top cfg c idx l).1 (gen_top cfg c idx l).2.2) := by
  induction l with
  | nil =>
    intro c idx
    unfold gen_top
    dsimp only
    refine ⟨⟨rfl, rfl⟩, fun h => h, fun h1 _ _ => ?_⟩
    exact ⟨h1, by simp [plugins_sorted, GenState.pending],
      by simp [GenState.pending], trivial⟩
  | cons p rest ih =>
    intro c idx
    obtain ⟨hfB, htB, hlB⟩ := gen_top_update_facts c idx p
    have hmono : c.publishHasValidated = true →
        (gen_top_update c idx p).publishHasValidated = true := by
      intro hv
      rw [hlB, hv, Bool.true_or]
    show same_error_flags (gen_top cfg c idx (p :: rest)).1 c ∧ _
    unfold gen_top
    dsimp only
    split
    · rename_i hyield
      refine ⟨hfB, hmono, fun h1 h2 h3 => ?_⟩
      have hlatch : (gen_top_update c idx p).publishHasValidated = true :=
        (Bool.and_eq_true _ _ |>.mp hyield).2
      have hall : ∀ q ∈ p :: rest, validation_order ≤ q.order := by
        rw [hlB] at hlatch
        rcases Bool.or_eq_true_iff.mp hlatch with hv | hd
        · exact h3 hv
        · intro q hq
          have hp : validation_order ≤ p.order := of_decide_eq_true hd
          rcases List.mem_cons.mp hq with hq1 | hq1
          · rw [hq1]; exact hp
          · exact le_trans hp
              ((List.pairwise_cons.mp h2).1 q hq1)
      refine ⟨by rw [htB]; exact h1, h2, fun _ => hall, hlatch⟩
    · rename_i hnoyield
      have hkey : latch_trace_ok c.latchTrace → plugins_sorted (p :: rest) →
          (c.publishHasValidated = true →
            ∀ q ∈ p :: rest, validation_order ≤ q.order) →
          (gen_top_update c idx p).publishHasValidated
            = decide (validation_order ≤ p.order) := by
        intro _ _ h3
        rw [hlB]
        cases hv : c.publishHasValidated with
        | false => simp
        | true =>
          have := h3 hv p (List.mem_cons_self p rest)
          simp [decide_eq_true this]
      cases hstep : gen_step_r1 cfg (gen_top_update c idx p) idx p rest with
      | inl out =>
        obtain ⟨c2, item, g2⟩ := out
        obtain ⟨hf2, hl2, hpend2, hsusp2, htr2⟩ := gen_step_r1_inl hstep
        refine ⟨⟨hf2.1.trans hfB.1, hf2.2.trans hfB.2⟩, ?_, ?_⟩
        · intro hv
          rw [hl2]
          exact hmono hv
        · intro h1 h2 h3
          have hk := hkey h1 h2 h3
          have htrc2 : latch_trace_ok c2.latchTrace :=
            htr2 (by rw [htB]; exact h1) hk
          have hall : c2.publishHasValidated = true →
              ∀ q ∈ p :: rest, validation_order ≤ q.order := by
            intro hv
            rw [hl2, hk] at hv
            intro q hq
            have hp : validation_order ≤ p.order := of_decide_eq_true hv
            rcases List.mem_cons.mp hq with hq1 | hq1
            · rw [hq1]; exact hp
            · exact le_trans hp ((List.pairwise_cons.mp h2).1 q hq1)
          refine ⟨htrc2, ?_, ?_, hsusp2⟩
          · rcases hpend2 with hp2 | hp2 | hp2 <;> rw [hp2]
            · exact (List.pairwise_cons.mp h2).2
            · exact List.Pairwise.nil
            · exact h2
          · intro hv
            rcases hpend2 with hp2 | hp2 | hp2 <;> rw [hp2]
            · intro q hq
              exact hall hv q (List.mem_cons_of_mem p hq)
            · intro q hq
              cases hq
            · exact hall hv
      | inr c2 =>
        obtain ⟨hf2, hl2, htr2⟩ := gen_step_r1_inr hstep
        obtain ⟨ihf, ihmono, ihinv⟩ := ih c2 (idx + 1)
        refine ⟨⟨ihf.1.trans (hf2.1.trans hfB.1),
          ihf.2.trans (hf2.2.trans hfB.2)⟩, ?_, ?_⟩
        · intro hv
          apply ihmono
          rw [hl2]
          exact hmono hv
        · intro h1 h2 h3
          have hk := hkey h1 h2 h3
          apply ihinv
          · exact htr2 (by rw [htB]; exact h1) hk
          · exact (List.pairwise_cons.mp h2).2
          · intro hv q hq
            have hv2 : (gen_top_update c idx p).publishHasValidated = true := by
              rw [← hl2]; exact hv
            rw [hk] at hv2
            have hp : validation_order ≤ p.order := of_decide_eq_true hv2
            exact le_trans hp ((List.pairwise_cons.mp h2).1 q hq)

/-- Facts about one generator pull: the error flags are untouched, the
latch never reverts, and the invariant is maintained. -/
theorem gen_pull_facts (cfg : RunConfig) (c : CtrlState) (g : GenState) :
    same_error_flags (gen_pull cfg c g).1 c
    ∧ (c.publishHasValidated = true →
        (gen_pull cfg c g).1.publishHasValidated = true)
    ∧ (LInv c g → LInv (gen_pull cfg c g).1 (gen_pull cfg c g).2.2) := by
  cases g with
  | atTop idx rest =>
    unfold gen_pull
    dsimp only
    obtain ⟨h1, h2, h3⟩ := gen_top_facts cfg rest c idx
    rcases hgt : gen_top cfg c idx rest with ⟨c2, item, g2⟩
    rw [hgt] at h1 h2 h3
    exact ⟨h1, h2, fun hinv => h3 hinv.1 hinv.2.1 hinv.2.2.1⟩
  | afterUpValidationStop idx p rest =>
    unfold gen_pull
    dsimp only
    have hkey : LInv c (.afterUpValidationStop idx p rest) →
        c.publishHasValidated = decide (validation_order ≤ p.order) := by
      intro hinv
      have hv : c.publishHasValidated = true := hinv.2.2.2
      have hp : validation_order ≤ p.order :=
        hinv.2.2.1 hv p (List.mem_cons_self p rest)
      rw [hv, decide_eq_true hp]
    cases hstep : gen_step_r1 cfg c idx p rest with
    | inl out =>
      obtain ⟨c2, item, g2⟩ := out
      obtain ⟨hf2, hl2, hpend2, hsusp2, htr2⟩ := gen_step_r1_inl hstep
      refine ⟨hf2, fun hv => by rw [hl2]; exact hv, fun hinv => ?_⟩
      have hall : ∀ q ∈ p :: rest, validation_order ≤ q.order :=
        hinv.2.2.1 hinv.2.2.2
      refine ⟨htr2 hinv.1 (hkey hinv), ?_, ?_, hsusp2⟩
      · rcases hpend2 with hp2 | hp2 | hp2 <;> rw [hp2]
        · exact (List.pairwise_cons.mp hinv.2.1).2
        · exact List.Pairwise.nil
        · exact hinv.2.1
      · intro _
        rcases hpend2 with hp2 | hp2 | hp2 <;> rw [hp2]
        · intro q hq
          exact hall q (List.mem_cons_of_mem p hq)
        · intro q hq
          cases hq
        · exact hall
    | inr c2 =>
      dsimp only
      obtain ⟨hf2, hl2, htr2⟩ := gen_step_r1_inr hstep
      obtain ⟨h1, h2, h3⟩ := gen_top_facts cfg rest c2 (idx + 1)
      rcases hgt : gen_top cfg c2 (idx + 1) rest with ⟨c3, item, g3⟩
      rw [hgt] at h1 h2 h3
      refine ⟨⟨h1.1.trans hf2.1, h1.2.trans hf2.2⟩,
        fun hv => h2 (by rw [hl2]; exact hv), fun hinv => ?_⟩
      have hall : ∀ q ∈ p :: rest, validation_order ≤ q.order :=
        hinv.2.2.1 hinv.2.2.2
      apply h3
      · exact htr2 hinv.1 (hkey hinv)
      · exact (List.pairwise_cons.mp hinv.2.1).2
      · intro _ q hq
        exact hall q (List.mem_cons_of_mem p hq)
  | afterErrorsStop idx p rest =>
    unfold gen_pull
    dsimp only
    have hkey : LInv c (.afterErrorsStop idx p rest) →
        c.publishHasValidated = decide (validation_order ≤ p.order) := by
      intro hinv
      have hv : c.publishHasValidated = true := hinv.2.2.2
      have hp : validation_order ≤ p.order :=
        hinv.2.2.1 hv p (List.mem_cons_self p rest)
      rw [hv, decide_eq_true hp]
    cases hstep : gen_step_r2 cfg c idx p rest with
    | inl out =>
      obtain ⟨c2, item, g2⟩ := out
      obtain ⟨hf2, hl2, hpend2, hsusp2, htr2⟩ := gen_step_r2_inl hstep
      refine ⟨hf2, fun hv => by rw [hl2]; exact hv, fun hinv => ?_⟩
      have hall : ∀ q ∈ p :: rest, validation_order ≤ q.order :=
        hinv.2.2.1 hinv.2.2.2
      refine ⟨htr2 hinv.1 (hkey hinv), ?_, ?_, hsusp2⟩
      · rcases hpend2 with hp2 | hp2 <;> rw [hp2]
        · exact (List.pairwise_cons.mp hinv.2.1).2
        · exact List.Pairwise.nil
      · intro _
        rcases hpend2 with hp2 | hp2 <;> rw [hp2]
        · intro q hq
          exact hall q (List.mem_cons_of_mem p hq)
        · intro q hq
          cases hq
    | inr c2 =>
      dsimp only
      obtain ⟨hf2, hl2, htr2⟩ := gen_step_r2_inr hstep
      obtain ⟨h1, h2, h3⟩ := gen_top_facts cfg rest c2 (idx + 1)
      rcases hgt : gen_top cfg c2 (idx + 1) rest with ⟨c3, item, g3⟩
      rw [hgt] at h1 h2 h3
      refine ⟨⟨h1.1.trans hf2.1, h1.2.trans hf2.2⟩,
        fun hv => h2 (by rw [hl2]; exact hv), fun hinv => ?_⟩
      have hall : ∀ q ∈ p :: rest, validation_order ≤ q.order :=
        hinv.2.2.1 hinv.2.2.2
      apply h3
      · exact htr2 hinv.1 (hkey hinv)
      · exact (List.pairwise_cons.mp hinv.2.1).2
      · intro _ q hq
        exact hall q (List.mem_cons_of_mem p hq)
  | inInstances idx p insts rest =>
    unfold gen_pull
    dsimp only
    cases hfind : find_next_instance insts with
    | some pr =>
      obtain ⟨i, restInstances⟩ := pr
      refine ⟨⟨rfl, rfl⟩, fun hv => hv, fun hinv => ?_⟩
      exact ⟨hinv.1, hinv.2.1, hinv.2.2.1, trivial⟩
    | none =>
      dsimp only
      obtain ⟨h1, h2, h3⟩ := gen_top_facts cfg rest c (idx + 1)
      rcases hgt : gen_top cfg c (idx + 1) rest with ⟨c3, item, g3⟩
      rw [hgt] at h1 h2 h3
      exact ⟨h1, h2, fun hinv => h3 hinv.1 hinv.2.1 hinv.2.2.1⟩
  | exhausted =>
    exact ⟨⟨rfl, rfl⟩, fun hv => hv, fun hinv => hinv⟩

/-- Facts about recording one validation error: latch and trace are
untouched, and the blocking-implies-errors invariant is preserved
(the non-specific flag is raised before, possibly, the blocking one). -/
theorem add_validation_error_facts (c : CtrlState) (p : Plugin) (e : Exc)
    (inst : Option PInstance) (b : Bool) :
    (add_validation_error c p e inst b).publishHasValidated
        = c.publishHasValidated
    ∧ (add_validation_error c p e inst b).latchTrace = c.latchTrace
    ∧ (blocking_implies_errors c →
        blocking_implies_errors (add_validation_error c p e inst b)) := by
  unfold add_validation_error
  split
  · exact ⟨rfl, rfl, fun h => h⟩
  · dsimp only
    split <;> split <;> exact ⟨rfl, rfl, fun _ _ => rfl⟩

/-- Facts about executing one (plugin, instance) unit: latch and ghost
trace are untouched and the blocking-implies-errors invariant is
preserved. -/
theorem process_step_facts (c : CtrlState) (p : Plugin)
    (inst : Option PInstance) :
    (process_and_continue_step c p inst).publishHasValidated
        = c.publishHasValidated
    ∧ (process_and_continue_step c p inst).latchTrace = c.latchTrace
    ∧ (blocking_implies_errors c →
        blocking_implies_errors (process_and_continue_step c p inst)) := by
  unfold process_and_continue_step
  cases herr : p.behavior (inst.map (fun i => i.id)) with
  | none =>
    dsimp only
    cases c.proxy.set_plugin_actions p.id none with
    | none => exact ⟨rfl, rfl, fun h => h⟩
    | some proxy =>
      dsimp only
      split
      · exact ⟨rfl, rfl, fun h => h⟩
      · split <;> exact ⟨rfl, rfl, fun h => h⟩
  | some e =>
    dsimp only
    cases c.proxy.set_plugin_actions p.id (some e) with
    | none => exact ⟨rfl, rfl, fun h => h⟩
    | some proxy =>
      dsimp only
      split
      · rename_i hval
        obtain ⟨hv1, hv2, hv3⟩ := add_validation_error_facts
          { c with proxy := proxy } p e inst e.isBlocking
        dsimp only
        split
        · exact ⟨hv1, hv2, fun h => hv3 h⟩
        · split <;> exact ⟨hv1, hv2, fun h => hv3 h⟩
      · dsimp only
        split
        · exact ⟨rfl, rfl, fun h => h⟩
        · split <;> exact ⟨rfl, rfl, fun h => h⟩

/-- Facts about the public stop callback. -/
theorem stop_publish_facts (c : CtrlState) :
    (stop_publish c).publishHasValidated = c.publishHasValidated
    ∧ (stop_publish c).latchTrace = c.latchTrace
    ∧ (blocking_implies_errors c →
        blocking_implies_errors (stop_publish c))
    ∧ same_error_flags (stop_publish c) c := by
  unfold stop_publish stop_publish_now
  split <;> exact ⟨rfl, rfl, fun h => h, rfl, rfl⟩

/-- The invariant transfers along equal error flags. -/
theorem binv_of_same {c2 c : CtrlState} (hf : same_error_flags c2 c)
    (h : blocking_implies_errors c) : blocking_implies_errors c2 := by
  unfold blocking_implies_errors at *
  rw [hf.1, hf.2]
  exact h

/-- LInv transfers along equal trace and latch. -/
theorem LInv_of_eq {c c2 : CtrlState} {g : GenState} (h : LInv c g)
    (ht : c2.latchTrace = c.latchTrace)
    (hl : c2.publishHasValidated = c.publishHasValidated) : LInv c2 g := by
  obtain ⟨h1, h2, h3, h4⟩ := h
  refine ⟨by rw [ht]; exact h1, h2, by rw [hl]; exact h3, ?_⟩
  cases g <;> first
    | exact h4
    | exact hl.trans h4

/-- Unfolding equation for one driver step at positive fuel. -/
theorem publish_next_process_succ_eq (cfg : RunConfig) (fuel : Nat)
    (c : CtrlState) (g : GenState) :
    publish_next_process cfg (fuel + 1) c g
      = if stop_publish_conditions cfg c then (stop_publish c, g)
        else if c.publishHasCrashed then (stop_publish c, g)
        else
          match gen_pull cfg c g with
          | (c2, none, g2) => ({ c2 with fault := true }, g2)
          | (c2, some item, g2) =>
            if c2.fault then (c2, g2)
            else
              match item with
              | .stopItem => (stop_publish c2, g2)
              | .processItem p inst =>
                let c3 := process_and_continue_step c2 p inst
                if c3.fault then (c3, g2)
                else publish_next_process cfg fuel c3 g2 := rfl

/-- Facts about the chained driver: the blocking-implies-errors
invariant is preserved, the latch never reverts, and from LInv the
ghost trace stays correct. -/
theorem publish_next_process_facts (cfg : RunConfig) :
    ∀ (fuel : Nat) (c : CtrlState) (g : GenState),
    (blocking_implies_errors c →
      blocking_implies_errors (publish_next_process cfg fuel c g).1)
    ∧ (c.publishHasValidated = true →
        (publish_next_process cfg fuel c g).1.publishHasValidated = true)
    ∧ (LInv c g →
        latch_trace_ok (publish_next_process cfg fuel c g).1.latchTrace) := by
  intro fuel
  induction fuel with
  | zero =>
    intro c g
    exact ⟨fun h => h, fun h => h, fun h => h.1⟩
  | succ fuel ih =>
    intro c g
    rw [publish_next_process_succ_eq]
    by_cases h1 : stop_publish_conditions cfg c = true
    · rw [if_pos h1]
      obtain ⟨hs1, hs2, hs3, _⟩ := stop_publish_facts c
      exact ⟨hs3, fun hv => by rw [hs1]; exact hv,
        fun hinv => by rw [hs2]; exact hinv.1⟩
    · rw [if_neg h1]
      by_cases h2 : c.publishHasCrashed = true
      · rw [if_pos h2]
        obtain ⟨hs1, hs2, hs3, _⟩ := stop_publish_facts c
        exact ⟨hs3, fun hv => by rw [hs1]; exact hv,
          fun hinv => by rw [hs2]; exact hinv.1⟩
      · rw [if_neg h2]
        obtain ⟨hpf, hpm, hpi⟩ := gen_pull_facts cfg c g
        rcases hpull : gen_pull cfg c g with ⟨c2, oitem, g2⟩
        rw [hpull] at hpf hpm hpi
        cases oitem with
        | none =>
          exact ⟨fun h => binv_of_same hpf h, hpm, fun hinv => (hpi hinv).1⟩
        | some item =>
          dsimp only
          by_cases hcf : c2.fault = true
          · rw [if_pos hcf]
            exact ⟨fun h => binv_of_same hpf h, hpm,
              fun hinv => (hpi hinv).1⟩
          · rw [if_neg hcf]
            cases item with
            | stopItem =>
              obtain ⟨hs1, hs2, hs3, hs4⟩ := stop_publish_facts c2
              refine ⟨fun h => hs3 (binv_of_same hpf h),
                fun hv => by rw [hs1]; exact hpm hv,
                fun hinv => by rw [hs2]; exact (hpi hinv).1⟩
            | processItem p inst =>
              dsimp only
              obtain ⟨hq1, hq2, hq3⟩ := process_step_facts c2 p inst
              by_cases h3 : (process_and_continue_step c2 p inst).fault = true
              · rw [if_pos h3]
                refine ⟨fun h => hq3 (binv_of_same hpf h),
                  fun hv => by rw [hq1]; exact hpm hv,
                  fun hinv => by rw [hq2]; exact (hpi hinv).1⟩
              · rw [if_neg h3]
                obtain ⟨ih1, ih2, ih3⟩ :=
                  ih (process_and_continue_step c2 p inst) g2
                refine ⟨fun h => ih1 (hq3 (binv_of_same hpf h)),
                  fun hv => ih2 (by rw [hq1]; exact hpm hv),
                  fun hinv => ih3 (LInv_of_eq (hpi hinv) hq2 hq1)⟩

/-- Facts about _reset_publish: flags cleared, fresh trace, fresh
iterator. -/
theorem reset_publish_facts (cfg : RunConfig) (c : CtrlState) :
    (reset_publish cfg c).1.publishHasValidated = false
    ∧ (reset_publish cfg c).1.latchTrace = []
    ∧ (reset_publish cfg c).1.publishHasValidationErrors = false
    ∧ (reset_publish cfg c).1.publishHasValidationBlockingErrors = false
    ∧ (reset_publish cfg c).1.publishIsRunning = false
    ∧ (reset_publish cfg c).2 = GenState.atTop 0 cfg.plugins := by
  unfold reset_publish reset_attributes
  dsimp only
  split <;> exact ⟨rfl, rfl, rfl, rfl, rfl, rfl⟩

/-- Facts about _start_publish: invariant and trace correctness carry
through. -/
theorem start_publish_facts (cfg : RunConfig) (fuel : Nat) (c : CtrlState)
    (g : GenState) :
    (blocking_implies_errors c →
      blocking_implies_errors (start_publish cfg fuel c g).1)
    ∧ (LInv c g → latch_trace_ok (start_publish cfg fuel c g).1.latchTrace) := by
  unfold start_publish
  split
  · exact ⟨fun h => h, fun h => h.1⟩
  · obtain ⟨h1, _, h3⟩ := publish_next_process_facts cfg fuel
      { c with publishIsRunning := true, publishHasStarted := true } g
    exact ⟨h1, h3⟩

/-- Facts about the validate() entry point. -/
theorem validate_call_facts (cfg : RunConfig) (fuel : Nat) (c : CtrlState)
    (g : GenState) :
    (blocking_implies_errors c →
      blocking_implies_errors (validate_call cfg fuel c g).1)
    ∧ (LInv c g → latch_trace_ok (validate_call cfg fuel c g).1.latchTrace) := by
  unfold validate_call
  dsimp only
  split
  · exact ⟨fun h => h, fun h => h.1⟩
  · obtain ⟨h1, h2⟩ := start_publish_facts cfg fuel
      { c with btnClicked := some "validate", publishUpValidation := true } g
    exact ⟨h1, fun hinv => h2 (LInv_of_eq hinv rfl rfl)⟩

/-- Facts about the publish() entry point. -/
theorem publish_call_facts (cfg : RunConfig) (fuel : Nat) (c : CtrlState)
    (g : GenState) :
    (blocking_implies_errors c →
      blocking_implies_errors (publish_call cfg fuel c g).1)
    ∧ (LInv c g → latch_trace_ok (publish_call cfg fuel c g).1.latchTrace) := by
  unfold publish_call
  obtain ⟨h1, h2⟩ := start_publish_facts cfg fuel
    { c with btnClicked := some "publish", publishUpValidation := false } g
  exact ⟨h1, fun hinv => h2 (LInv_of_eq hinv rfl rfl)⟩

/-- The ignore_non_blocking_errors entry point always leaves the
invariant intact: it resets the flags before restarting. -/
theorem ignore_call_binv (cfg : RunConfig) (fuel : Nat) (c : CtrlState)
    (g : GenState) :
    blocking_implies_errors
      (ignore_non_blocking_errors_call cfg fuel c g).1 := by
  unfold ignore_non_blocking_errors_call
  dsimp only
  obtain hr := reset_publish_facts cfg { c with ignoreNonBlockingErrors := true }
  rcases hre : reset_publish cfg { c with ignoreNonBlockingErrors := true }
    with ⟨c0, g0⟩
  rw [hre] at hr
  have hb0 : blocking_implies_errors c0 := by
    intro hb
    rw [hr.2.2.2.1] at hb
    cases hb
  dsimp only
  split
  · exact hb0
  · split
    · rename_i btn _
      split
      · exact (validate_call_facts cfg fuel c0 g0).1 hb0
      · split
        · exact (publish_call_facts cfg fuel c0 g0).1 hb0
        · exact hb0
    · exact hb0

/-- C5: the blocking-validation-error flag implies the non-specific
validation-errors flag in every state the machinery produces — through
the chained driver and every entry point — while the converse need not
hold: the concrete batch run records a non-blocking error, ending with
has_validation_errors true and the blocking flag false. -/
theorem C5_blocking_implies_errors_inv (cfg : RunConfig) (fuel : Nat)
    (c : CtrlState) (g : GenState)
    (hinv : blocking_implies_errors c) :
    blocking_implies_errors (publish_next_process cfg fuel c g).1
    ∧ blocking_implies_errors (validate_call cfg fuel c g).1
    ∧ blocking_implies_errors (publish_call cfg fuel c g).1
    ∧ blocking_implies_errors
        (ignore_non_blocking_errors_call cfg fuel c g).1
    ∧ (c5Run.1.publishHasValidationErrors = true
        ∧ c5Run.1.publishHasValidationBlockingErrors = false) := by
  refine ⟨(publish_next_process_facts cfg fuel c g).1 hinv,
    (validate_call_facts cfg fuel c g).1 hinv,
    (publish_call_facts cfg fuel c g).1 hinv,
    ignore_call_binv cfg fuel c g,
    ⟨by decide, by decide⟩⟩

/-- C5 witness: the theorem applied to the freshly initialised
controller. -/
theorem C5_witness :
    blocking_implies_errors CtrlState.init
    ∧ (blocking_implies_errors
          (publish_next_process c5Config 32 CtrlState.init
            GenState.exhausted).1
        ∧ blocking_implies_errors
            (validate_call c5Config 32 CtrlState.init GenState.exhausted).1
        ∧ blocking_implies_errors
            (publish_call c5Config 32 CtrlState.init GenState.exhausted).1
        ∧ blocking_implies_errors
            (ignore_non_blocking_errors_call c5Config 32 CtrlState.init
              GenState.exhausted).1
        ∧ (c5Run.1.publishHasValidationErrors = true
            ∧ c5Run.1.publishHasValidationBlockingErrors = false)) :=
  ⟨(fun h => nomatch h),
    C5_blocking_implies_errors_inv c5Config 32 CtrlState.init
      GenState.exhausted (fun h => nomatch h)⟩

/-- C2: in every fresh run over a plugin list sorted by order, every
ghost trace entry — recorded while processing one plugin, right after
the latch update — shows the latch true exactly for plugins at or above
validator-order + offset; and the latch is monotonic: once true it never
reverts within the driver. -/
theorem C2_validation_latch (cfg : RunConfig) (fuel : Nat)
    (validateMode : Bool) (c : CtrlState) (g : GenState)
    (hs : plugins_sorted cfg.plugins) :
    latch_trace_ok (fresh_run cfg fuel validateMode).1.latchTrace
    ∧ (c.publishHasValidated = true →
        (publish_next_process cfg fuel c g).1.publishHasValidated = true) := by
  constructor
  · obtain hr := reset_publish_facts cfg CtrlState.init
    unfold fresh_run
    rcases hre : reset_publish cfg CtrlState.init with ⟨c0, g0⟩
    rw [hre] at hr
    have hLI : LInv c0 g0 := by
      have hg0 : g0 = GenState.atTop 0 cfg.plugins := hr.2.2.2.2.2
      have htr0 : c0.latchTrace = [] := hr.2.1
      have hv0 : c0.publishHasValidated = false := hr.1
      rw [hg0]
      refine ⟨?_, hs, ?_, trivial⟩
      · rw [htr0]
        intro e he
        cases he
      · intro hv
        rw [hv0] at hv
        cases hv
    cases validateMode
    · dsimp only
      exact (publish_call_facts cfg fuel c0 g0).2 hLI
    · dsimp only
      exact (validate_call_facts cfg fuel c0 g0).2 hLI
  · exact (publish_next_process_facts cfg fuel c g).2.1

/-- C2 witness: the theorem applied to the sorted C1 plugin list and a
state with the latch already up. -/
theorem C2_witness :
    plugins_sorted c1Config.plugins
    ∧ (latch_trace_ok (fresh_run c1Config 32 true).1.latchTrace
        ∧ (c2WitnessState.publishHasValidated = true →
            (publish_next_process c1Config 32 c2WitnessState
              GenState.exhausted).1.publishHasValidated = true)) :=
  ⟨by unfold plugins_sorted; decide,
    C2_validation_latch c1Config 32 true c2WitnessState GenState.exhausted
      (by unfold plugins_sorted; decide)⟩

end AyonPublisher
